import Mathlib

/-
Shallow embedding of the Xen event-channel demultiplexer
(drivers/xen/events.c) and verification of the spec's claims about it.

Bit arrays shared with the hypervisor (evtchn_pending, evtchn_mask, the
per-cpu port masks, pirq_needs_eoi_bits and the per-vcpu selector word)
are modelled as natural numbers whose binary digits are the bits of the
array; sync_set_bit / sync_clear_bit / sync_test_bit become setBit /
clearBit / Nat.testBit.  Hypercalls are recorded in an output trace;
results that the code consumes come in as explicit oracle arguments.
BUG() / BUG_ON() aborts are modelled by an Option result (none = abort).
-/

set_option maxRecDepth 10000

namespace XenEvents

/-- NR_EVENT_CHANNELS: number of event-channel ports. -/
def NR_EVENT_CHANNELS : Nat := 1024

/-- BITS_PER_LONG on the 64-bit target. -/
def BITS_PER_LONG : Nat := 64

/-- An all-ones machine word, used to complement a word of evtchn_mask. -/
def WORD_MASK : Nat := (1 <<< BITS_PER_LONG) - 1

/-- An all-ones port bitmap (the memset with ~0 over a cpu_evtchn_s). -/
def ALL_PORTS_MASK : Nat := (1 <<< NR_EVENT_CHANNELS) - 1

/-- sync_set_bit on a bit array represented as a natural number. -/
def setBit (n p : Nat) : Nat := n ||| (1 <<< p)

/-- sync_clear_bit on a bit array represented as a natural number. -/
def clearBit (n p : Nat) : Nat := if n.testBit p then n ^^^ (1 <<< p) else n

/-- MASK_LSBS(w, i): mask out the i least significant bits of w. -/
def MASK_LSBS (w i : Nat) : Nat := (w >>> i) <<< i

/-- Fuel-bounded helper for the least-set-bit search (words are 64 bits). -/
def ffsAux : Nat → Nat → Nat
  | 0, _ => 0
  | fuel + 1, n => if n % 2 = 1 then 0 else ffsAux fuel (n / 2) + 1

/-- The __ffs primitive: index of the least significant set bit of a
nonzero word (only ever applied to nonzero words by the scanner). -/
def ffs (n : Nat) : Nat := ffsAux BITS_PER_LONG n

/-- enum xen_irq_type. -/
inductive XenIrqType where
  | unbound
  | pirq
  | virq
  | ipi
  | evtchn
deriving DecidableEq

/-- PIRQ_SHAREABLE flag bit (1 << 1). -/
def PIRQ_SHAREABLE : Nat := 1 <<< 1

/-- DOMID_SELF from the Xen ABI (0x7FF0). -/
def DOMID_SELF : Nat := 0x7FF0

/-- BIND_PIRQ__WILL_SHARE from the Xen ABI. -/
def BIND_PIRQ_WILL_SHARE : Nat := 1

/-- XENIRQSTAT_needs_eoi from the Xen ABI (bit 0 of the status flags). -/
def XENIRQSTAT_needs_eoi : Nat := 1 <<< 0

/-- struct irq_info: packed per-IRQ record.  The C union over the
type-specific payload is modelled with one field per member; each
constructor writes its own member and the code reads only the member of
the current type. -/
structure IrqInfo where
  type : XenIrqType
  evtchn : Nat
  cpu : Nat
  u_virq : Nat
  u_ipi : Nat
  u_pirq_gsi : Nat
  u_pirq_vector : Nat
  u_pirq_flags : Nat
  u_pirq_domid : Nat
deriving DecidableEq

/-- mk_unbound_info(). -/
def mk_unbound_info : IrqInfo :=
  ⟨XenIrqType.unbound, 0, 0, 0, 0, 0, 0, 0, 0⟩

/-- mk_evtchn_info(evtchn). -/
def mk_evtchn_info (evtchn : Nat) : IrqInfo :=
  ⟨XenIrqType.evtchn, evtchn, 0, 0, 0, 0, 0, 0, 0⟩

/-- mk_ipi_info(evtchn, ipi). -/
def mk_ipi_info (evtchn ipi : Nat) : IrqInfo :=
  ⟨XenIrqType.ipi, evtchn, 0, 0, ipi, 0, 0, 0, 0⟩

/-- mk_virq_info(evtchn, virq). -/
def mk_virq_info (evtchn virq : Nat) : IrqInfo :=
  ⟨XenIrqType.virq, evtchn, 0, virq, 0, 0, 0, 0, 0⟩

/-- mk_pirq_info(evtchn, gsi, vector). -/
def mk_pirq_info (evtchn gsi vector : Nat) : IrqInfo :=
  ⟨XenIrqType.pirq, evtchn, 0, 0, 0, gsi, vector, 0, DOMID_SELF⟩

/-- Hypercalls issued by the subsystem, recorded in an output trace. -/
inductive Hypercall where
  | evtchnClose (port : Nat)
  | evtchnUnmask (port : Nat)
  | evtchnBindVirq (virq vcpu : Nat)
  | evtchnBindIpi (vcpu : Nat)
  | evtchnBindInterdomain (remoteDom remotePort : Nat)
  | evtchnBindPirq (gsi flags : Nat)
  | physdevEoi (gsi : Nat)
  | physdevIrqStatusQuery (gsi : Nat)
  | schedPoll (port : Nat) (timeout : Nat)
deriving DecidableEq

/-- The global mutable state of the subsystem: the hypervisor-shared
bitmaps, per-vcpu upcall records, the port/irq tables and the per-cpu
scan cursor.  Per-cpu data is indexed by the cpu number. -/
structure EvtchnState where
  evtchn_pending : Nat
  evtchn_mask : Nat
  cpu_evtchn_mask : Nat → Nat
  evtchn_to_irq : Nat → Int
  irq_info : Nat → IrqInfo
  virq_to_irq : Nat → Nat → Int
  ipi_to_irq : Nat → Nat → Int
  pirq_needs_eoi_bits : Nat
  pirq_eoi_does_unmask : Bool
  evtchn_upcall_pending : Nat → Bool
  evtchn_pending_sel : Nat → Nat
  current_word_idx : Nat → Nat
  current_bit_idx : Nat → Nat
  xed_nesting_count : Nat → Nat

/-- VALID_EVTCHN(chn): Xen never allocates port zero. -/
def VALID_EVTCHN (chn : Nat) : Bool := chn != 0

/-- evtchn_from_irq(irq). -/
def evtchn_from_irq (s : EvtchnState) (irq : Nat) : Nat :=
  (s.irq_info irq).evtchn

/-- cpu_from_irq(irq). -/
def cpu_from_irq (s : EvtchnState) (irq : Nat) : Nat :=
  (s.irq_info irq).cpu

/-- cpu_from_evtchn(evtchn): 0 when the port has no IRQ mapping. -/
def cpu_from_evtchn (s : EvtchnState) (evtchn : Nat) : Nat :=
  let irq := s.evtchn_to_irq evtchn
  if irq = -1 then 0 else cpu_from_irq s irq.toNat

/-- pirq_needs_eoi(irq); BUG_ON(type != IRQT_PIRQ) gives none. -/
def pirq_needs_eoi (s : EvtchnState) (irq : Nat) : Option Bool :=
  if (s.irq_info irq).type = XenIrqType.pirq then
    some (s.pirq_needs_eoi_bits.testBit ((s.irq_info irq).u_pirq_gsi))
  else
    none

/-- active_evtchns(cpu, sh, idx): the word of currently deliverable
ports, pending ∧ cpu-mask ∧ ¬masked. -/
def active_evtchns (s : EvtchnState) (cpu idx : Nat) : Nat :=
  ((s.evtchn_pending >>> (idx * BITS_PER_LONG)) &&& WORD_MASK) &&&
    ((s.cpu_evtchn_mask cpu >>> (idx * BITS_PER_LONG)) &&& WORD_MASK) &&&
    (WORD_MASK ^^^ ((s.evtchn_mask >>> (idx * BITS_PER_LONG)) &&& WORD_MASK))

/-- clear_evtchn(port). -/
def clear_evtchn (port : Nat) (s : EvtchnState) : EvtchnState :=
  { s with evtchn_pending := clearBit s.evtchn_pending port }

/-- set_evtchn(port). -/
def set_evtchn (port : Nat) (s : EvtchnState) : EvtchnState :=
  { s with evtchn_pending := setBit s.evtchn_pending port }

/-- test_evtchn(port). -/
def test_evtchn (port : Nat) (s : EvtchnState) : Bool :=
  s.evtchn_pending.testBit port

/-- mask_evtchn(port). -/
def mask_evtchn (port : Nat) (s : EvtchnState) : EvtchnState :=
  { s with evtchn_mask := setBit s.evtchn_mask port }

/-- unmask_evtchn(port), running on cpu.  Non-local ports take the
hypercall slow path; local ports clear the mask bit and, when the port
is still pending and the selector bit makes a 0 to 1 transition, set the
vcpu upcall_pending flag (edge recovery). -/
def unmask_evtchn (cpu port : Nat) (s : EvtchnState) :
    EvtchnState × List Hypercall :=
  if cpu ≠ cpu_from_evtchn s port then
    (s, [Hypercall.evtchnUnmask port])
  else
    let s1 : EvtchnState := { s with evtchn_mask := clearBit s.evtchn_mask port }
    if s1.evtchn_pending.testBit port then
      let old := (s1.evtchn_pending_sel cpu).testBit (port / BITS_PER_LONG)
      let newSel := setBit (s1.evtchn_pending_sel cpu) (port / BITS_PER_LONG)
      let s2 : EvtchnState :=
        { s1 with evtchn_pending_sel := Function.update s1.evtchn_pending_sel cpu newSel }
      if !old then
        ({ s2 with evtchn_upcall_pending := Function.update s2.evtchn_upcall_pending cpu true }, [])
      else
        (s2, [])
    else
      (s1, [])

/-- bind_evtchn_to_cpu(chn, cpu): move the port between per-cpu masks
and retarget the IrqInfo cpu field.  BUG_ON(irq == -1) gives none. -/
def bind_evtchn_to_cpu (chn cpu : Nat) (s : EvtchnState) :
    Option EvtchnState :=
  let irq := s.evtchn_to_irq chn
  if irq = -1 then
    none
  else
    let irqN := irq.toNat
    let oldCpu := cpu_from_irq s irqN
    let clearedOld := clearBit (s.cpu_evtchn_mask oldCpu) chn
    let s1 : EvtchnState :=
      { s with cpu_evtchn_mask := Function.update s.cpu_evtchn_mask oldCpu clearedOld }
    let setNew := setBit (s1.cpu_evtchn_mask cpu) chn
    let s2 : EvtchnState :=
      { s1 with cpu_evtchn_mask := Function.update s1.cpu_evtchn_mask cpu setNew }
    let newInfo := { s2.irq_info irqN with cpu := cpu }
    some { s2 with irq_info := Function.update s2.irq_info irqN newInfo }

/-- pirq_eoi(irq), running on cpu.  Returns the new state, the hypercall
trace and whether unmask_evtchn was invoked; BUG_ON(type != IRQT_PIRQ)
inside pirq_needs_eoi gives none.  The WARN_ON on the hypercall result
has no state effect and is not modelled. -/
def pirq_eoi (cpu irq : Nat) (s : EvtchnState) :
    Option (EvtchnState × List Hypercall × Bool) :=
  match pirq_needs_eoi s irq with
  | none => none
  | some need_eoi =>
    let gsi := (s.irq_info irq).u_pirq_gsi
    let unmaskStep :=
      if !need_eoi || !s.pirq_eoi_does_unmask then
        let r := unmask_evtchn cpu ((s.irq_info irq).evtchn) s
        (r.1, r.2, true)
      else
        (s, [], false)
    let eoiTrace := if need_eoi then [Hypercall.physdevEoi gsi] else []
    some (unmaskStep.1, unmaskStep.2.1 ++ eoiTrace, unmaskStep.2.2)

/-- pirq_query_unmask(irq).  statusFlags is the oracle result of the
PHYSDEVOP_irq_status_query hypercall (none = nonzero return, in which
case the code uses flags = 0); BUG_ON(type != IRQT_PIRQ) gives none. -/
def pirq_query_unmask (statusFlags : Option Nat) (irq : Nat)
    (s : EvtchnState) : Option (EvtchnState × List Hypercall) :=
  if s.pirq_eoi_does_unmask then
    some (s, [])
  else if (s.irq_info irq).type ≠ XenIrqType.pirq then
    none
  else
    let gsi := (s.irq_info irq).u_pirq_gsi
    let flags := statusFlags.getD 0
    let s1 : EvtchnState :=
      { s with pirq_needs_eoi_bits := clearBit s.pirq_needs_eoi_bits gsi }
    let s2 :=
      if flags &&& XENIRQSTAT_needs_eoi ≠ 0 then
        { s1 with pirq_needs_eoi_bits := setBit s1.pirq_needs_eoi_bits gsi }
      else
        s1
    some (s2, [Hypercall.physdevIrqStatusQuery gsi])

/-- startup_pirq(irq), running on cpu.  bindPirqPort is the oracle
result of the deferred EVTCHNOP_bind_pirq hypercall (none = nonzero
return code, the probing / failure path); statusFlags feeds
pirq_query_unmask.  BUG_ON(type != IRQT_PIRQ) gives none. -/
def startup_pirq (cpu : Nat) (bindPirqPort : Option Nat)
    (statusFlags : Option Nat) (irq : Nat) (s : EvtchnState) :
    Option (Nat × EvtchnState × List Hypercall) :=
  if (s.irq_info irq).type ≠ XenIrqType.pirq then
    none
  else
    let evtchn := evtchn_from_irq s irq
    if VALID_EVTCHN evtchn then
      (pirq_eoi cpu irq s).map (fun r => (0, r.1, r.2.1))
    else
      let gsi := (s.irq_info irq).u_pirq_gsi
      let shareFlags :=
        if (s.irq_info irq).u_pirq_flags &&& PIRQ_SHAREABLE ≠ 0 then
          BIND_PIRQ_WILL_SHARE
        else
          0
      let bindTrace := [Hypercall.evtchnBindPirq gsi shareFlags]
      match bindPirqPort with
      | none => some (0, s, bindTrace)
      | some port =>
        match pirq_query_unmask statusFlags irq s with
        | none => none
        | some (s1, t1) =>
          let s2 : EvtchnState :=
            { s1 with evtchn_to_irq := Function.update s1.evtchn_to_irq port (Int.ofNat irq) }
          match bind_evtchn_to_cpu port 0 s2 with
          | none => none
          | some s3 =>
            let newInfo := { s3.irq_info irq with evtchn := port }
            let s4 : EvtchnState :=
              { s3 with irq_info := Function.update s3.irq_info irq newInfo }
            (pirq_eoi cpu irq s4).map (fun r => (0, r.1, bindTrace ++ t1 ++ r.2.1))

/-- bind_evtchn_to_irq(evtchn).  freshIrq is the slot found by
find_unbound_irq on the allocation path (its descriptor scan lives in
the host IRQ core and is not part of this state). -/
def bind_evtchn_to_irq (freshIrq : Nat) (evtchn : Nat) (s : EvtchnState) :
    Int × EvtchnState × List Hypercall :=
  let irq := s.evtchn_to_irq evtchn
  if irq = -1 then
    let s1 : EvtchnState :=
      { s with evtchn_to_irq := Function.update s.evtchn_to_irq evtchn (Int.ofNat freshIrq) }
    let s2 : EvtchnState :=
      { s1 with irq_info := Function.update s1.irq_info freshIrq (mk_evtchn_info evtchn) }
    (Int.ofNat freshIrq, s2, [])
  else
    (irq, s, [])

/-- bind_ipi_to_irq(ipi, cpu).  hvPort is the port returned by the
EVTCHNOP_bind_ipi hypercall; none = nonzero return, which the code turns
into BUG(). -/
def bind_ipi_to_irq (freshIrq : Nat) (hvPort : Option Nat) (ipi cpu : Nat)
    (s : EvtchnState) : Option (Int × EvtchnState × List Hypercall) :=
  let irq := s.ipi_to_irq cpu ipi
  if irq = -1 then
    match hvPort with
    | none => none
    | some evtchn =>
      let s1 : EvtchnState :=
        { s with evtchn_to_irq := Function.update s.evtchn_to_irq evtchn (Int.ofNat freshIrq) }
      let s2 : EvtchnState :=
        { s1 with irq_info := Function.update s1.irq_info freshIrq (mk_ipi_info evtchn ipi) }
      let newPerCpu := Function.update (s2.ipi_to_irq cpu) ipi (Int.ofNat freshIrq)
      let s3 : EvtchnState :=
        { s2 with ipi_to_irq := Function.update s2.ipi_to_irq cpu newPerCpu }
      (bind_evtchn_to_cpu evtchn cpu s3).map
        (fun s4 => (Int.ofNat freshIrq, s4, [Hypercall.evtchnBindIpi cpu]))
  else
    some (irq, s, [])

/-- bind_virq_to_irq(virq, cpu).  hvPort is the port returned by the
EVTCHNOP_bind_virq hypercall; none = nonzero return, which the code
turns into BUG(). -/
def bind_virq_to_irq (freshIrq : Nat) (hvPort : Option Nat) (virq cpu : Nat)
    (s : EvtchnState) : Option (Int × EvtchnState × List Hypercall) :=
  let irq := s.virq_to_irq cpu virq
  if irq = -1 then
    match hvPort with
    | none => none
    | some evtchn =>
      let s1 : EvtchnState :=
        { s with evtchn_to_irq := Function.update s.evtchn_to_irq evtchn (Int.ofNat freshIrq) }
      let s2 : EvtchnState :=
        { s1 with irq_info := Function.update s1.irq_info freshIrq (mk_virq_info evtchn virq) }
      let newPerCpu := Function.update (s2.virq_to_irq cpu) virq (Int.ofNat freshIrq)
      let s3 : EvtchnState :=
        { s2 with virq_to_irq := Function.update s2.virq_to_irq cpu newPerCpu }
      (bind_evtchn_to_cpu evtchn cpu s3).map
        (fun s4 => (Int.ofNat freshIrq, s4, [Hypercall.evtchnBindVirq virq cpu]))
  else
    some (irq, s, [])

/-- bind_interdomain_evtchn_to_irq(remote_domain, remote_port).
hvResult is the EVTCHNOP_bind_interdomain outcome: error err (nonzero,
returned unchanged) or the allocated local port. -/
def bind_interdomain_evtchn_to_irq (freshIrq : Nat)
    (hvResult : Except Int Nat) (remoteDom remotePort : Nat)
    (s : EvtchnState) : Int × EvtchnState × List Hypercall :=
  let tr := [Hypercall.evtchnBindInterdomain remoteDom remotePort]
  match hvResult with
  | Except.error err => (err, s, tr)
  | Except.ok localPort =>
    let r := bind_evtchn_to_irq freshIrq localPort s
    (r.1, r.2.1, tr ++ r.2.2)

/-- The demotion tail of unbind_from_irq: reset IrqInfo to unbound when
it is not already (dynamic_irq_cleanup is host-IRQ-core state). -/
def unbind_demote (irq : Nat) (s : EvtchnState) : EvtchnState :=
  if (s.irq_info irq).type ≠ XenIrqType.unbound then
    { s with irq_info := Function.update s.irq_info irq mk_unbound_info }
  else
    s

/-- unbind_from_irq(irq).  closeOk is the EVTCHNOP_close outcome; a
failed close is BUG() (none).  The per-cpu reverse map of a Virq/Ipi is
cleared, the closed port is re-bound to cpu 0, both mapping directions
are cleared and the IrqInfo is demoted to unbound. -/
def unbind_from_irq (closeOk : Bool) (irq : Nat) (s : EvtchnState) :
    Option (EvtchnState × List Hypercall) :=
  let evtchn := evtchn_from_irq s irq
  if VALID_EVTCHN evtchn then
    if closeOk then
      let cpuE := cpu_from_evtchn s evtchn
      let s1 : EvtchnState :=
        if (s.irq_info irq).type = XenIrqType.virq then
          let newPerCpu := Function.update (s.virq_to_irq cpuE) ((s.irq_info irq).u_virq) (-1)
          { s with virq_to_irq := Function.update s.virq_to_irq cpuE newPerCpu }
        else if (s.irq_info irq).type = XenIrqType.ipi then
          let newPerCpu := Function.update (s.ipi_to_irq cpuE) ((s.irq_info irq).u_ipi) (-1)
          { s with ipi_to_irq := Function.update s.ipi_to_irq cpuE newPerCpu }
        else s
      (bind_evtchn_to_cpu evtchn 0 s1).map (fun s2 =>
        let s3 : EvtchnState :=
          { s2 with evtchn_to_irq := Function.update s2.evtchn_to_irq evtchn (-1) }
        (unbind_demote irq s3, [Hypercall.evtchnClose evtchn]))
    else
      none
  else
    some (unbind_demote irq s, [])

/-- bind_evtchn_to_irqhandler: bind, then register the handler with the
host IRQ core (request_irq, whose return value retval is an oracle); a
nonzero retval rolls the binding back via unbind_from_irq and is
returned unchanged. -/
def bind_evtchn_to_irqhandler (freshIrq : Nat) (retval : Int)
    (closeOk : Bool) (evtchn : Nat) (s : EvtchnState) :
    Option (Int × EvtchnState × List Hypercall) :=
  let r := bind_evtchn_to_irq freshIrq evtchn s
  if retval ≠ 0 then
    (unbind_from_irq closeOk r.1.toNat r.2.1).map
      (fun u => (retval, u.1, r.2.2 ++ u.2))
  else
    some (r.1, r.2.1, r.2.2)

/-- bind_interdomain_evtchn_to_irqhandler: as above over the
inter-domain bind; a negative irq from the bind step is returned
directly without registration. -/
def bind_interdomain_evtchn_to_irqhandler (freshIrq : Nat) (retval : Int)
    (closeOk : Bool) (hvResult : Except Int Nat) (remoteDom remotePort : Nat)
    (s : EvtchnState) : Option (Int × EvtchnState × List Hypercall) :=
  let r := bind_interdomain_evtchn_to_irq freshIrq hvResult remoteDom remotePort s
  if r.1 < 0 then
    some (r.1, r.2.1, r.2.2)
  else if retval ≠ 0 then
    (unbind_from_irq closeOk r.1.toNat r.2.1).map
      (fun u => (retval, u.1, r.2.2 ++ u.2))
  else
    some (r.1, r.2.1, r.2.2)

/-- bind_virq_to_irqhandler. -/
def bind_virq_to_irqhandler (freshIrq : Nat) (retval : Int)
    (closeOk : Bool) (hvPort : Option Nat) (virq cpu : Nat)
    (s : EvtchnState) : Option (Int × EvtchnState × List Hypercall) :=
  match bind_virq_to_irq freshIrq hvPort virq cpu s with
  | none => none
  | some r =>
    if retval ≠ 0 then
      (unbind_from_irq closeOk r.1.toNat r.2.1).map
        (fun u => (retval, u.1, r.2.2 ++ u.2))
    else
      some (r.1, r.2.1, r.2.2)

/-- bind_ipi_to_irqhandler (the IRQF flag additions live in the host IRQ
core); a negative irq from the bind step is returned directly. -/
def bind_ipi_to_irqhandler (freshIrq : Nat) (retval : Int)
    (closeOk : Bool) (hvPort : Option Nat) (ipi cpu : Nat)
    (s : EvtchnState) : Option (Int × EvtchnState × List Hypercall) :=
  match bind_ipi_to_irq freshIrq hvPort ipi cpu s with
  | none => none
  | some r =>
    if r.1 < 0 then
      some (r.1, r.2.1, r.2.2)
    else if retval ≠ 0 then
      (unbind_from_irq closeOk r.1.toNat r.2.1).map
        (fun u => (retval, u.1, r.2.2 ++ u.2))
    else
      some (r.1, r.2.1, r.2.2)

/-- resend_irq_on_evtchn(irq), running on cpu: atomically set the mask
bit remembering its old value, set pending, and unmask when the port was
previously unmasked, forcing a fresh edge. -/
def resend_irq_on_evtchn (cpu irq : Nat) (s : EvtchnState) :
    Nat × EvtchnState × List Hypercall :=
  let evtchn := evtchn_from_irq s irq
  if !VALID_EVTCHN evtchn then
    (1, s, [])
  else
    let masked := s.evtchn_mask.testBit evtchn
    let s1 : EvtchnState := { s with evtchn_mask := setBit s.evtchn_mask evtchn }
    let s2 : EvtchnState := { s1 with evtchn_pending := setBit s1.evtchn_pending evtchn }
    if !masked then
      let r := unmask_evtchn cpu evtchn s2
      (1, r.1, r.2)
    else
      (1, s2, [])

/-- ack_dynirq(irq), running on cpu: move_masked_irq is host-IRQ-core
state; then unmask unless the descriptor is disabled. -/
def ack_dynirq (cpu irq : Nat) (descDisabled : Bool) (s : EvtchnState) :
    EvtchnState × List Hypercall :=
  let evtchn := evtchn_from_irq s irq
  if VALID_EVTCHN evtchn && !descDisabled then
    unmask_evtchn cpu evtchn s
  else
    (s, [])

/-- xen_clear_irq_pending(irq). -/
def xen_clear_irq_pending (irq : Nat) (s : EvtchnState) : EvtchnState :=
  let evtchn := evtchn_from_irq s irq
  if VALID_EVTCHN evtchn then clear_evtchn evtchn s else s

/-- xen_set_irq_pending(irq). -/
def xen_set_irq_pending (irq : Nat) (s : EvtchnState) : EvtchnState :=
  let evtchn := evtchn_from_irq s irq
  if VALID_EVTCHN evtchn then set_evtchn evtchn s else s

/-- xen_test_irq_pending(irq). -/
def xen_test_irq_pending (irq : Nat) (s : EvtchnState) : Bool :=
  let evtchn := evtchn_from_irq s irq
  if VALID_EVTCHN evtchn then test_evtchn evtchn s else false

/-- xen_poll_irq_timeout(irq, timeout): SCHEDOP_poll on the port;
schedOk is its outcome, a nonzero return is BUG() (none). -/
def xen_poll_irq_timeout (schedOk : Bool) (irq timeout : Nat)
    (s : EvtchnState) : Option (EvtchnState × List Hypercall) :=
  let evtchn := evtchn_from_irq s irq
  if VALID_EVTCHN evtchn then
    if schedOk then
      some (s, [Hypercall.schedPoll evtchn timeout])
    else
      none
  else
    some (s, [])

/-- init_evtchn_cpu_bindings: memset cpu 0's port mask to all-ones and
every other cpu's to zero (the irq_desc affinity copies live in the host
IRQ core). -/
def init_evtchn_cpu_bindings (s : EvtchnState) : EvtchnState :=
  { s with cpu_evtchn_mask := fun c => if c = 0 then ALL_PORTS_MASK else 0 }

/-- One step of the xen_irq_resume loop zapping an IrqInfo's port. -/
def zap_evtchn_binding (s : EvtchnState) (irq : Nat) : EvtchnState :=
  let newInfo := { s.irq_info irq with evtchn := 0 }
  { s with irq_info := Function.update s.irq_info irq newInfo }

/-- One step of the xen_irq_resume loop clearing evtchn_to_irq. -/
def clear_port_mapping (s : EvtchnState) (evtchn : Nat) : EvtchnState :=
  { s with evtchn_to_irq := Function.update s.evtchn_to_irq evtchn (-1) }

/-- The invalidation phase of xen_irq_resume (everything before the
restore_cpu_virqs / restore_cpu_ipis rebinding loops): reset the cpu
bindings, mask every port, zap every IrqInfo's event channel and clear
the port-to-irq table.  nrIrqs is the size of the irq_info array. -/
def xen_irq_resume_invalidate (nrIrqs : Nat) (s : EvtchnState) : EvtchnState :=
  let s0 := init_evtchn_cpu_bindings s
  let s1 := (List.range NR_EVENT_CHANNELS).foldl (fun t e => mask_evtchn e t) s0
  let s2 := (List.range nrIrqs).foldl zap_evtchn_binding s1
  (List.range NR_EVENT_CHANNELS).foldl clear_port_mapping s2

/-- The inner do-while of __xen_evtchn_do_upcall: drain one word visit.
pendingBits is the active_evtchns snapshot taken on entry to the visit;
h models generic_handle_irq_desc (host IRQ core dispatch: driver handler
plus chip eoi), receiving the irq, the dispatch log so far and the
state.  The log accumulates dispatched ports.  bit_idx strictly
increases until it wraps to 0, so BITS_PER_LONG + 1 fuel suffices. -/
def upcall_scan_word (h : Nat → List Nat → EvtchnState → EvtchnState)
    (cpu wordIdx pendingBits : Nat) :
    Nat → Nat → EvtchnState → List Nat → EvtchnState × List Nat
  | 0, _, s, log => (s, log)
  | fuel + 1, bitIdx, s, log =>
    let bits := MASK_LSBS pendingBits bitIdx
    if bits = 0 then
      (s, log)
    else
      let bitIdx1 := ffs bits
      let port := wordIdx * BITS_PER_LONG + bitIdx1
      let irq := s.evtchn_to_irq port
      let sA := clear_evtchn port (mask_evtchn port s)
      let step : EvtchnState × List Nat :=
        if irq = -1 then
          (sA, log)
        else
          (h irq.toNat (log ++ [port]) sA, log ++ [port])
      let bitIdx2 := (bitIdx1 + 1) % BITS_PER_LONG
      let cursorWord := if bitIdx2 ≠ 0 then wordIdx else (wordIdx + 1) % BITS_PER_LONG
      let sB : EvtchnState :=
        { step.1 with
          current_word_idx := Function.update step.1.current_word_idx cpu cursorWord
          current_bit_idx := Function.update step.1.current_bit_idx cpu bitIdx2 }
      if bitIdx2 = 0 then
        (sB, step.2)
      else
        upcall_scan_word h cpu wordIdx pendingBits fuel bitIdx2 sB step.2

/-- The outer for-loop of __xen_evtchn_do_upcall over one selector-word
snapshot (pendingWords).  The bit_idx selection is the literal
translation of the source: on the second visit of the starting word the
code computes bit_idx &= (1UL << start_bit_idx) - 1 with bit_idx equal
to 0, leaving pendingBits itself unmasked. -/
def upcall_scan (h : Nat → List Nat → EvtchnState → EvtchnState)
    (cpu startWordIdx startBitIdx : Nat) :
    Nat → Nat → Nat → Nat → EvtchnState → List Nat → EvtchnState × List Nat
  | 0, _, _, _, s, log => (s, log)
  | fuel + 1, i, wordIdx, pendingWords, s, log =>
    if pendingWords = 0 then
      (s, log)
    else
      let words := MASK_LSBS pendingWords wordIdx
      if words = 0 then
        upcall_scan h cpu startWordIdx startBitIdx fuel (i + 1) 0 pendingWords s log
      else
        let wordIdx1 := ffs words
        let pendingBits := active_evtchns s cpu wordIdx1
        let bitIdx :=
          if wordIdx1 = startWordIdx then
            if i = 0 then startBitIdx
            else 0 &&& ((1 <<< startBitIdx) - 1)
          else 0
        let r := upcall_scan_word h cpu wordIdx1 pendingBits (BITS_PER_LONG + 1) bitIdx s log
        let pendingWords1 :=
          if wordIdx1 ≠ startWordIdx ∨ i ≠ 0 then clearBit pendingWords wordIdx1
          else pendingWords
        upcall_scan h cpu startWordIdx startBitIdx fuel (i + 1)
          ((wordIdx1 + 1) % BITS_PER_LONG) pendingWords1 r.1 r.2

/-- Modelled from the spec: the same scan, except that on the second
visit of the starting word (after wrapping) the bits at positions at or
above start_bit_idx are masked out of the word's pending bits, as spec
section 4.4 step 4 states.  Used to compare against the source's
behaviour. -/
def upcall_scan_spec_masked (h : Nat → List Nat → EvtchnState → EvtchnState)
    (cpu startWordIdx startBitIdx : Nat) :
    Nat → Nat → Nat → Nat → EvtchnState → List Nat → EvtchnState × List Nat
  | 0, _, _, _, s, log => (s, log)
  | fuel + 1, i, wordIdx, pendingWords, s, log =>
    if pendingWords = 0 then
      (s, log)
    else
      let words := MASK_LSBS pendingWords wordIdx
      if words = 0 then
        upcall_scan_spec_masked h cpu startWordIdx startBitIdx fuel (i + 1) 0 pendingWords s log
      else
        let wordIdx1 := ffs words
        let pendingBits0 := active_evtchns s cpu wordIdx1
        let pendingBits :=
          if wordIdx1 = startWordIdx ∧ i ≠ 0 then
            pendingBits0 &&& ((1 <<< startBitIdx) - 1)
          else pendingBits0
        let bitIdx := if wordIdx1 = startWordIdx ∧ i = 0 then startBitIdx else 0
        let r := upcall_scan_word h cpu wordIdx1 pendingBits (BITS_PER_LONG + 1) bitIdx s log
        let pendingWords1 :=
          if wordIdx1 ≠ startWordIdx ∨ i ≠ 0 then clearBit pendingWords wordIdx1
          else pendingWords
        upcall_scan_spec_masked h cpu startWordIdx startBitIdx fuel (i + 1)
          ((wordIdx1 + 1) % BITS_PER_LONG) pendingWords1 r.1 r.2

/-- The outer do-while of __xen_evtchn_do_upcall: clear upcall_pending,
fold nested invocations via xed_nesting_count, atomically consume the
selector word, scan, and loop while a nested invocation or a new
upcall_pending arrived mid-scan. -/
def xen_do_upcall_loop (h : Nat → List Nat → EvtchnState → EvtchnState)
    (cpu : Nat) : Nat → EvtchnState → List Nat → EvtchnState × List Nat
  | 0, s, log => (s, log)
  | fuel + 1, s, log =>
    let s0 : EvtchnState :=
      { s with evtchn_upcall_pending := Function.update s.evtchn_upcall_pending cpu false }
    let oldNest := s0.xed_nesting_count cpu
    let s1 : EvtchnState :=
      { s0 with xed_nesting_count := Function.update s0.xed_nesting_count cpu (oldNest + 1) }
    if oldNest ≠ 0 then
      (s1, log)
    else
      let pendingWords := s1.evtchn_pending_sel cpu
      let s2 : EvtchnState :=
        { s1 with evtchn_pending_sel := Function.update s1.evtchn_pending_sel cpu 0 }
      let startWordIdx := s2.current_word_idx cpu
      let startBitIdx := s2.current_bit_idx cpu
      let r := upcall_scan h cpu startWordIdx startBitIdx 256 0 startWordIdx pendingWords s2 log
      let count := r.1.xed_nesting_count cpu
      let s3 : EvtchnState :=
        { r.1 with xed_nesting_count := Function.update r.1.xed_nesting_count cpu 0 }
      if count ≠ 1 ∨ s3.evtchn_upcall_pending cpu then
        xen_do_upcall_loop h cpu fuel s3 r.2
      else
        (s3, r.2)

/-- __xen_evtchn_do_upcall entry, on cpu, starting with an empty
dispatch log.  Fuel bounds the outer do-while. -/
def xen_evtchn_do_upcall (h : Nat → List Nat → EvtchnState → EvtchnState)
    (cpu fuel : Nat) (s : EvtchnState) : EvtchnState × List Nat :=
  xen_do_upcall_loop h cpu fuel s []

/-- A quiescent state: nothing pending, nothing masked, no bindings,
empty per-cpu tables and cursors at the origin.  Concrete scenario
states below override the relevant fields. -/
def base_state : EvtchnState := {
  evtchn_pending := 0
  evtchn_mask := 0
  cpu_evtchn_mask := fun _ => 0
  evtchn_to_irq := fun _ => -1
  irq_info := fun _ => mk_unbound_info
  virq_to_irq := fun _ _ => -1
  ipi_to_irq := fun _ _ => -1
  pirq_needs_eoi_bits := 0
  pirq_eoi_does_unmask := false
  evtchn_upcall_pending := fun _ => false
  evtchn_pending_sel := fun _ => 0
  current_word_idx := fun _ => 0
  current_bit_idx := fun _ => 0
  xed_nesting_count := fun _ => 0
}

/-- Scenario state for the two-level scan test: pending words 0b1010 at
word 0 and 0b1 at word 5, nothing masked, every port routed to cpu 0,
selector (1 << 0) | (1 << 5), cursor (0, 0); ports 1, 3 and 320 have
IRQ mappings. -/
def c3_state : EvtchnState := { base_state with
  evtchn_pending := 10 ||| (1 <<< 320)
  cpu_evtchn_mask := fun c => if c = 0 then ALL_PORTS_MASK else 0
  evtchn_to_irq := fun p => if p = 1 ∨ p = 3 ∨ p = 320 then Int.ofNat p else -1
  irq_info := fun irq =>
    if irq = 1 ∨ irq = 3 ∨ irq = 320 then mk_evtchn_info irq else mk_unbound_info
  evtchn_upcall_pending := fun _ => true
  evtchn_pending_sel := fun c => if c = 0 then 33 else 0
}

/-- Scenario state for the starting-word second-visit inspection: the
cursor saved by the previous upcall is (0, 2), the consumed selector
snapshot is word 0 only, ports 1 and 5 are pending, unmasked and routed
to cpu 0 with IRQ mappings. -/
def c1_state : EvtchnState := { base_state with
  evtchn_pending := (1 <<< 1) ||| (1 <<< 5)
  cpu_evtchn_mask := fun c => if c = 0 then ALL_PORTS_MASK else 0
  evtchn_to_irq := fun p => if p = 1 ∨ p = 5 then Int.ofNat p else -1
  irq_info := fun irq =>
    if irq = 1 ∨ irq = 5 then mk_evtchn_info irq else mk_unbound_info
  current_bit_idx := fun _ => 2
}

/-- A dispatch model for the scenario above: the driver handler bound to
irq 5 re-raises its own interrupt once via resend_irq_on_evtchn (an
exported primitive of this subsystem), and every dispatch finishes with
the dynamic chip's eoi (ack_dynirq) exactly as handle_fasteoi_irq
does. -/
def c1_handler (irq : Nat) (log : List Nat) (s : EvtchnState) : EvtchnState :=
  let s1 :=
    if irq = 5 ∧ log.count 5 ≤ 1 then (resend_irq_on_evtchn 0 irq s).2.1 else s
  (ack_dynirq 0 irq false s1).1

/-- State with IRQ 3 a pass-through binding on port 9 for GSI 7, whose
pirq_needs_eoi bit is set, under a hypervisor that advertised
eoi-done-by-unmask. -/
def c2_state : EvtchnState := { base_state with
  evtchn_mask := 1 <<< 9
  evtchn_to_irq := fun p => if p = 9 then 3 else -1
  irq_info := fun irq => if irq = 3 then mk_pirq_info 9 7 0 else mk_unbound_info
  pirq_needs_eoi_bits := 1 <<< 7
  pirq_eoi_does_unmask := true
}

/-- State with port 7 bound to IRQ 7 on cpu 0, masked and pending, and
with the selector bit of word 0 already set while upcall_pending is
clear (the window after the scanner consumed upcall_pending but before
it exchanged the selector word). -/
def c4_cx_state : EvtchnState := { base_state with
  evtchn_pending := 1 <<< 7
  evtchn_mask := 1 <<< 7
  cpu_evtchn_mask := fun c => if c = 0 then ALL_PORTS_MASK else 0
  evtchn_to_irq := fun p => if p = 7 then 7 else -1
  irq_info := fun irq => if irq = 7 then mk_evtchn_info 7 else mk_unbound_info
  evtchn_pending_sel := fun c => if c = 0 then 1 else 0
}

/-- As c4_cx_state but with the selector word still clear: the
edge-recovery scenario of spec section 8 scenario 3. -/
def c4_w_state : EvtchnState := { base_state with
  evtchn_pending := 1 <<< 7
  evtchn_mask := 1 <<< 7
  cpu_evtchn_mask := fun c => if c = 0 then ALL_PORTS_MASK else 0
  evtchn_to_irq := fun p => if p = 7 then 7 else -1
  irq_info := fun irq => if irq = 7 then mk_evtchn_info 7 else mk_unbound_info
}

/-- State with IRQ 3 a Virq binding (virq 5, cpu 0) on port 42. -/
def c5_w_state : EvtchnState := { base_state with
  cpu_evtchn_mask := fun c => if c = 0 then 1 <<< 42 else 0
  evtchn_to_irq := fun p => if p = 42 then 3 else -1
  irq_info := fun irq => if irq = 3 then mk_virq_info 42 5 else mk_unbound_info
  virq_to_irq := fun c v => if c = 0 ∧ v = 5 then 3 else -1
}

/-- State with existing bindings: port 9 mapped to IRQ 4, virq 0 on
cpu 1 mapped to IRQ 5, ipi 2 on cpu 0 mapped to IRQ 6. -/
def c8_w_state : EvtchnState := { base_state with
  evtchn_to_irq := fun p => if p = 9 then 4 else -1
  virq_to_irq := fun c v => if c = 1 ∧ v = 0 then 5 else -1
  ipi_to_irq := fun c v => if c = 0 ∧ v = 2 then 6 else -1
}

/-- State with some pending bits but IRQ 3 unbound (port field 0). -/
def c9_w_state : EvtchnState := { base_state with
  evtchn_pending := 6
}

/-- State with IRQ 2 a pass-through record for GSI 7 whose deferred
BIND_PIRQ has not run yet (port 0). -/
def c10_w_state : EvtchnState := { base_state with
  irq_info := fun irq => if irq = 2 then mk_pirq_info 0 7 0 else mk_unbound_info
}

/-
Theorems.  Helper lemmas first, then one theorem per claim (with a
witness or counterexample where required).
-/

theorem testBit_setBit (n p q : Nat) :
    (setBit n p).testBit q = (n.testBit q || decide (q = p)) := by
  unfold setBit
  rw [Nat.testBit_or, Nat.shiftLeft_eq, one_mul, Nat.testBit_two_pow]
  by_cases h : p = q
  · subst h; simp
  · simp [h, Ne.symm h]

theorem testBit_clearBit (n p q : Nat) :
    (clearBit n p).testBit q = (n.testBit q && !decide (q = p)) := by
  unfold clearBit
  by_cases hb : n.testBit p
  · rw [if_pos hb, Nat.testBit_xor, Nat.shiftLeft_eq, one_mul,
      Nat.testBit_two_pow]
    by_cases h : p = q
    · subst h; simp [hb]
    · simp [h, Ne.symm h]
  · rw [if_neg hb]
    by_cases h : q = p
    · subst h; simp [hb]
    · simp [h]

theorem foldl_preserve {β : Type} {α : Type} (g : β → α) (f : β → Nat → β)
    (h : ∀ b e, g (f b e) = g b) (l : List Nat) (b : β) :
    g (l.foldl f b) = g b := by
  induction l generalizing b with
  | nil => rfl
  | cons x xs ih => rw [List.foldl_cons, ih, h]

theorem mask_loop_testBit (n : Nat) (s : EvtchnState) (p : Nat) :
    ((List.range n).foldl (fun t e => mask_evtchn e t) s).evtchn_mask.testBit p
      = (decide (p < n) || s.evtchn_mask.testBit p) := by
  induction n generalizing s with
  | zero => simp
  | succ k ih =>
    rw [List.range_succ, List.foldl_append, List.foldl_cons, List.foldl_nil]
    show (mask_evtchn k _).evtchn_mask.testBit p = _
    rw [mask_evtchn, testBit_setBit, ih]
    by_cases hk : p = k
    · subst hk; simp
    · by_cases hlt : p < k
      · have : p < k + 1 := by omega
        simp [hk, hlt, this]
      · have : ¬ p < k + 1 := by omega
        simp [hk, hlt, this]

theorem zap_loop_irq_info (n : Nat) (s : EvtchnState) (i : Nat) :
    ((List.range n).foldl zap_evtchn_binding s).irq_info i
      = if i < n then { s.irq_info i with evtchn := 0 } else s.irq_info i := by
  induction n generalizing s with
  | zero => simp
  | succ k ih =>
    rw [List.range_succ, List.foldl_append, List.foldl_cons, List.foldl_nil]
    show (zap_evtchn_binding _ k).irq_info i = _
    rw [zap_evtchn_binding]
    by_cases hk : i = k
    · subst hk
      simp only [Function.update_same, ih]
      simp
    · simp only [Function.update_noteq hk, ih]
      by_cases hlt : i < k
      · have : i < k + 1 := by omega
        simp [hlt, this]
      · have : ¬ i < k + 1 := by omega
        simp [hlt, this]

theorem clear_loop_evtchn_to_irq (n : Nat) (s : EvtchnState) (p : Nat) :
    ((List.range n).foldl clear_port_mapping s).evtchn_to_irq p
      = if p < n then -1 else s.evtchn_to_irq p := by
  induction n generalizing s with
  | zero => simp
  | succ k ih =>
    rw [List.range_succ, List.foldl_append, List.foldl_cons, List.foldl_nil]
    show (clear_port_mapping _ k).evtchn_to_irq p = _
    rw [clear_port_mapping]
    by_cases hk : p = k
    · subst hk
      simp only [Function.update_same]
      simp
    · simp only [Function.update_noteq hk, ih]
      by_cases hlt : p < k
      · have : p < k + 1 := by omega
        simp [hlt, this]
      · have : ¬ p < k + 1 := by omega
        simp [hlt, this]

theorem clear_loop_irq_info_eq (n : Nat) (s : EvtchnState) :
    ((List.range n).foldl clear_port_mapping s).irq_info = s.irq_info :=
  foldl_preserve (fun (t : EvtchnState) => t.irq_info) clear_port_mapping (fun _ _ => rfl) _ s

theorem clear_loop_evtchn_mask_eq (n : Nat) (s : EvtchnState) :
    ((List.range n).foldl clear_port_mapping s).evtchn_mask = s.evtchn_mask :=
  foldl_preserve (fun (t : EvtchnState) => t.evtchn_mask) clear_port_mapping (fun _ _ => rfl) _ s

theorem zap_loop_evtchn_mask_eq (n : Nat) (s : EvtchnState) :
    ((List.range n).foldl zap_evtchn_binding s).evtchn_mask = s.evtchn_mask :=
  foldl_preserve (fun (t : EvtchnState) => t.evtchn_mask) zap_evtchn_binding (fun _ _ => rfl) _ s

theorem mask_loop_irq_info_eq (n : Nat) (s : EvtchnState) :
    ((List.range n).foldl (fun t e => mask_evtchn e t) s).irq_info = s.irq_info :=
  foldl_preserve (fun (t : EvtchnState) => t.irq_info) (fun t e => mask_evtchn e t) (fun _ _ => rfl) _ s

/-- C1: the source does not mask out the bits at or above start_bit_idx
on the second visit of the starting word: the statement bit_idx &=
(1UL << start_bit_idx) - 1 masks the bit index (which is 0 at that
point) instead of the word's pending bits, contradicting its own
comment.  On the concrete snapshot c1_state (cursor (0, 2), selector
snapshot word 0, ports 1 and 5 pending, port 5's handler re-raising its
interrupt once) the source dispatches port 5 twice from the same
selector snapshot, while the scan that masks the word's pending bits as
the spec states dispatches it once. -/
theorem c1_second_visit_bits_not_masked :
    (upcall_scan c1_handler 0 0 2 256 0 0 1 c1_state []).2 = [5, 1, 5] ∧
    (upcall_scan_spec_masked c1_handler 0 0 2 256 0 0 1 c1_state []).2 = [5, 1] := by
  decide

/-- C3: with pending words 0b1010 at word 0 and 0b1 at word 5, nothing
masked, cpu 0's port mask all-ones, selector (1 << 0) | (1 << 5) and
cursor (0, 0), one upcall on cpu 0 dispatches exactly ports 1, 3, 320
in that order and leaves the cursor at (5, 1). -/
theorem c3_two_level_scan_cursor :
    (xen_evtchn_do_upcall (fun _ _ t => t) 0 4 c3_state).2 = [1, 3, 320] ∧
    (xen_evtchn_do_upcall (fun _ _ t => t) 0 4 c3_state).1.current_word_idx 0 = 5 ∧
    (xen_evtchn_do_upcall (fun _ _ t => t) 0 4 c3_state).1.current_bit_idx 0 = 1 := by
  decide

/-- C6: after the invalidation phase of xen_irq_resume and before the
rebinding loops, every IrqInfo record has its port zeroed with its kind
and kind-specific payload unchanged, every port-to-irq entry is the -1
sentinel, and every port is masked. -/
theorem c6_resume_invalidation (s : EvtchnState) (nrIrqs : Nat) :
    (∀ irq, irq < nrIrqs →
      ((xen_irq_resume_invalidate nrIrqs s).irq_info irq).evtchn = 0 ∧
      ((xen_irq_resume_invalidate nrIrqs s).irq_info irq).type = (s.irq_info irq).type ∧
      ((xen_irq_resume_invalidate nrIrqs s).irq_info irq).u_virq = (s.irq_info irq).u_virq ∧
      ((xen_irq_resume_invalidate nrIrqs s).irq_info irq).u_ipi = (s.irq_info irq).u_ipi ∧
      ((xen_irq_resume_invalidate nrIrqs s).irq_info irq).u_pirq_gsi = (s.irq_info irq).u_pirq_gsi ∧
      ((xen_irq_resume_invalidate nrIrqs s).irq_info irq).u_pirq_vector = (s.irq_info irq).u_pirq_vector ∧
      ((xen_irq_resume_invalidate nrIrqs s).irq_info irq).u_pirq_flags = (s.irq_info irq).u_pirq_flags ∧
      ((xen_irq_resume_invalidate nrIrqs s).irq_info irq).u_pirq_domid = (s.irq_info irq).u_pirq_domid) ∧
    (∀ p, p < NR_EVENT_CHANNELS →
      (xen_irq_resume_invalidate nrIrqs s).evtchn_to_irq p = -1) ∧
    (∀ p, p < NR_EVENT_CHANNELS →
      (xen_irq_resume_invalidate nrIrqs s).evtchn_mask.testBit p = true) := by
  have hinfo : (xen_irq_resume_invalidate nrIrqs s).irq_info
      = ((List.range nrIrqs).foldl zap_evtchn_binding
          ((List.range NR_EVENT_CHANNELS).foldl (fun t e => mask_evtchn e t)
            (init_evtchn_cpu_bindings s))).irq_info := by
    rw [xen_irq_resume_invalidate, clear_loop_irq_info_eq]
  have hmap : ∀ p, (xen_irq_resume_invalidate nrIrqs s).evtchn_to_irq p
      = if p < NR_EVENT_CHANNELS then -1
        else ((List.range nrIrqs).foldl zap_evtchn_binding
          ((List.range NR_EVENT_CHANNELS).foldl (fun t e => mask_evtchn e t)
            (init_evtchn_cpu_bindings s))).evtchn_to_irq p := by
    intro p
    rw [xen_irq_resume_invalidate, clear_loop_evtchn_to_irq]
  have hmask : (xen_irq_resume_invalidate nrIrqs s).evtchn_mask
      = ((List.range NR_EVENT_CHANNELS).foldl (fun t e => mask_evtchn e t)
          (init_evtchn_cpu_bindings s)).evtchn_mask := by
    rw [xen_irq_resume_invalidate, clear_loop_evtchn_mask_eq, zap_loop_evtchn_mask_eq]
  refine ⟨?_, ?_, ?_⟩
  · intro irq hirq
    rw [hinfo, zap_loop_irq_info, mask_loop_irq_info_eq, if_pos hirq]
    exact ⟨rfl, rfl, rfl, rfl, rfl, rfl, rfl, rfl⟩
  · intro p hp
    rw [hmap, if_pos hp]
  · intro p hp
    rw [hmask, mask_loop_testBit]
    simp [hp]

/-- Witness for C6 at a concrete state and irq_info array size 4. -/
theorem c6_resume_invalidation_witness :
    ((xen_irq_resume_invalidate 4 c5_w_state).irq_info 3).evtchn = 0 ∧
    ((xen_irq_resume_invalidate 4 c5_w_state).irq_info 3).type = XenIrqType.virq ∧
    (xen_irq_resume_invalidate 4 c5_w_state).evtchn_to_irq 42 = -1 ∧
    (xen_irq_resume_invalidate 4 c5_w_state).evtchn_mask.testBit 42 = true := by
  have h := c6_resume_invalidation c5_w_state 4
  refine ⟨(h.1 3 (by decide)).1, ?_, h.2.1 42 (by decide), h.2.2 42 (by decide)⟩
  have ht := (h.1 3 (by decide)).2.1
  rw [ht]
  decide

/-- C9: on an IRQ whose IrqInfo port field is 0 the pending/poll
primitives are no-ops at the interface: clear and set leave the state
(and so the shared pending bitmap) unchanged, test returns false, and
poll issues no SCHED_POLL hypercall. -/
theorem c9_unbound_pending_primitives (s : EvtchnState) (irq timeout : Nat)
    (h : evtchn_from_irq s irq = 0) :
    xen_clear_irq_pending irq s = s ∧
    xen_set_irq_pending irq s = s ∧
    xen_test_irq_pending irq s = false ∧
    (∀ schedOk, xen_poll_irq_timeout schedOk irq timeout s = some (s, [])) := by
  have hv : VALID_EVTCHN (evtchn_from_irq s irq) = false := by
    simp [VALID_EVTCHN, h]
  refine ⟨?_, ?_, ?_, fun schedOk => ?_⟩ <;>
    simp [xen_clear_irq_pending, xen_set_irq_pending, xen_test_irq_pending,
      xen_poll_irq_timeout, hv]

/-- Witness for C9: IRQ 3 is unbound in c9_w_state. -/
theorem c9_unbound_pending_primitives_witness :
    evtchn_from_irq c9_w_state 3 = 0 ∧
    xen_clear_irq_pending 3 c9_w_state = c9_w_state ∧
    xen_set_irq_pending 3 c9_w_state = c9_w_state ∧
    xen_test_irq_pending 3 c9_w_state = false ∧
    xen_poll_irq_timeout false 3 100 c9_w_state = some (c9_w_state, []) := by
  have h := c9_unbound_pending_primitives c9_w_state 3 100 rfl
  exact ⟨rfl, h.1, h.2.1, h.2.2.1, h.2.2.2 false⟩

theorem ofNat_ne_neg_one (n : Nat) : (Int.ofNat n) ≠ -1 := by
  intro heq
  have h0 : (0 : Int) ≤ Int.ofNat n := Int.ofNat_nonneg n
  rw [heq] at h0
  exact absurd h0 (by decide)

theorem option_map_zero_exists {γ : Type} (o : Option γ) (f : γ → EvtchnState)
    (g : γ → List Hypercall) (ho : o.isSome = true) :
    ∃ s' tr, (o.map (fun r => ((0 : Nat), f r, g r))) = some (0, s', tr) := by
  cases o with
  | none => cases ho
  | some r => exact ⟨f r, g r, rfl⟩

theorem pirq_eoi_isSome (cpu irq : Nat) (s : EvtchnState)
    (h : (s.irq_info irq).type = XenIrqType.pirq) :
    (pirq_eoi cpu irq s).isSome = true := by
  simp [pirq_eoi, pirq_needs_eoi, h]

theorem pirq_query_unmask_eq (statusFlags : Option Nat) (irq : Nat)
    (s : EvtchnState) (h : (s.irq_info irq).type = XenIrqType.pirq) :
    ∃ b tr, pirq_query_unmask statusFlags irq s
      = some ({ s with pirq_needs_eoi_bits := b }, tr) := by
  by_cases hde : s.pirq_eoi_does_unmask
  · refine ⟨s.pirq_needs_eoi_bits, [], ?_⟩
    unfold pirq_query_unmask
    rw [if_pos hde]
  · by_cases hf : (statusFlags.getD 0) &&& XENIRQSTAT_needs_eoi ≠ 0
    · exact ⟨setBit (clearBit s.pirq_needs_eoi_bits ((s.irq_info irq).u_pirq_gsi))
          ((s.irq_info irq).u_pirq_gsi),
        [Hypercall.physdevIrqStatusQuery ((s.irq_info irq).u_pirq_gsi)],
        by simp [pirq_query_unmask, hde, h, hf]⟩
    · exact ⟨clearBit s.pirq_needs_eoi_bits ((s.irq_info irq).u_pirq_gsi),
        [Hypercall.physdevIrqStatusQuery ((s.irq_info irq).u_pirq_gsi)],
        by simp [pirq_query_unmask, hde, h, hf]⟩

/-- C10: startup_pirq returns 0 whether the deferred BIND_PIRQ
hypercall succeeds (some port), fails (none) or is skipped because a
port is already bound; the caller cannot distinguish the outcomes
through the return value. -/
theorem c10_startup_pirq_returns_zero (cpu : Nat)
    (bindPirqPort statusFlags : Option Nat) (irq : Nat) (s : EvtchnState)
    (h : (s.irq_info irq).type = XenIrqType.pirq) :
    ∃ s' tr, startup_pirq cpu bindPirqPort statusFlags irq s = some (0, s', tr) := by
  unfold startup_pirq
  rw [if_neg (by simp [h])]
  by_cases hv : VALID_EVTCHN (evtchn_from_irq s irq)
  · rw [if_pos hv]
    exact option_map_zero_exists _ _ _ (pirq_eoi_isSome cpu irq s h)
  · rw [if_neg hv]
    cases bindPirqPort with
    | none => exact ⟨s, _, rfl⟩
    | some port =>
      obtain ⟨b, t1, hq⟩ := pirq_query_unmask_eq statusFlags irq s h
      rw [hq]
      simp only [bind_evtchn_to_cpu, Function.update_same]
      rw [if_neg (ofNat_ne_neg_one irq)]
      refine option_map_zero_exists _ _ _ (pirq_eoi_isSome cpu irq _ ?_)
      simp [Function.update_same, Int.toNat_ofNat, h]

/-- Witness for C10 at the concrete pass-through record c10_w_state,
with the hypercall both succeeding and failing. -/
theorem c10_startup_pirq_returns_zero_witness :
    (c10_w_state.irq_info 2).type = XenIrqType.pirq ∧
    (∃ s' tr, startup_pirq 0 (some 33) (some 1) 2 c10_w_state = some (0, s', tr)) ∧
    (∃ s' tr, startup_pirq 0 none (some 1) 2 c10_w_state = some (0, s', tr)) :=
  ⟨rfl, c10_startup_pirq_returns_zero 0 (some 33) (some 1) 2 c10_w_state rfl,
    c10_startup_pirq_returns_zero 0 none (some 1) 2 c10_w_state rfl⟩

theorem unmask_evtchn_trace (cpu port : Nat) (s : EvtchnState) :
    (unmask_evtchn cpu port s).2 = [] ∨
    (unmask_evtchn cpu port s).2 = [Hypercall.evtchnUnmask port] := by
  by_cases h1 : cpu ≠ cpu_from_evtchn s port
  · right
    simp [unmask_evtchn, h1]
  · by_cases h2 : s.evtchn_pending.testBit port
    · by_cases h3 : (s.evtchn_pending_sel cpu).testBit (port / BITS_PER_LONG)
      · left
        simp [unmask_evtchn, h1, h2, h3]
      · left
        simp [unmask_evtchn, h1, h2, h3]
    · left
      simp [unmask_evtchn, h1, h2]

/-- C2 counterexample: in c2_state the GSI's needs-eoi bit is set and
the hypervisor advertised eoi-via-shared-bitmap support, so the claim
predicts a local unmask of port 9; the code performs none (the mask bit
stays set and unmask_evtchn is never invoked), it only issues the EOI
hypercall. -/
theorem c2_pirq_eoi_counterexample :
    c2_state.pirq_needs_eoi_bits.testBit ((c2_state.irq_info 3).u_pirq_gsi) = true ∧
    c2_state.pirq_eoi_does_unmask = true ∧
    (pirq_eoi 0 3 c2_state).map (fun r => (r.1.evtchn_mask.testBit 9, r.2.1, r.2.2))
      = some (true, [Hypercall.physdevEoi 7], false) := by
  decide

/-- C2 amended: pirq_eoi invokes unmask_evtchn exactly when the GSI's
needs-eoi bit is clear or the hypervisor did not advertise
eoi-via-shared-bitmap support (pirq_eoi_does_unmask is false), and it
issues PHYSDEV_EOI(gsi) exactly when the bit is set; the two conditions
are independent. -/
theorem c2_pirq_eoi_amended (cpu irq : Nat) (s : EvtchnState)
    (h : (s.irq_info irq).type = XenIrqType.pirq) :
    ∃ s' tr called, pirq_eoi cpu irq s = some (s', tr, called) ∧
      called = (!(s.pirq_needs_eoi_bits.testBit ((s.irq_info irq).u_pirq_gsi))
                 || !s.pirq_eoi_does_unmask) ∧
      (Hypercall.physdevEoi ((s.irq_info irq).u_pirq_gsi) ∈ tr ↔
        s.pirq_needs_eoi_bits.testBit ((s.irq_info irq).u_pirq_gsi) = true) := by
  by_cases hneed : s.pirq_needs_eoi_bits.testBit ((s.irq_info irq).u_pirq_gsi)
  · by_cases hdou : s.pirq_eoi_does_unmask
    · refine ⟨s, [Hypercall.physdevEoi ((s.irq_info irq).u_pirq_gsi)], false, ?_, ?_, ?_⟩
      · simp [pirq_eoi, pirq_needs_eoi, h, hneed, hdou]
      · simp [hneed, hdou]
      · simp [hneed]
    · refine ⟨(unmask_evtchn cpu ((s.irq_info irq).evtchn) s).1,
        (unmask_evtchn cpu ((s.irq_info irq).evtchn) s).2
          ++ [Hypercall.physdevEoi ((s.irq_info irq).u_pirq_gsi)],
        true, ?_, ?_, ?_⟩
      · simp [pirq_eoi, pirq_needs_eoi, h, hneed, hdou]
      · simp [hneed, hdou]
      · simp [hneed]
  · refine ⟨(unmask_evtchn cpu ((s.irq_info irq).evtchn) s).1,
      (unmask_evtchn cpu ((s.irq_info irq).evtchn) s).2, true, ?_, ?_, ?_⟩
    · simp [pirq_eoi, pirq_needs_eoi, h, hneed]
    · simp [hneed]
    · simp only [hneed]
      constructor
      · intro hmem
        rcases unmask_evtchn_trace cpu ((s.irq_info irq).evtchn) s with ht | ht <;>
          rw [ht] at hmem <;> simp at hmem
      · intro hfalse
        cases hfalse

/-- Witness for C2 amended at the concrete state c2_state. -/
theorem c2_pirq_eoi_amended_witness :
    (c2_state.irq_info 3).type = XenIrqType.pirq ∧
    (∃ s' tr called, pirq_eoi 0 3 c2_state = some (s', tr, called) ∧
      called = (!(c2_state.pirq_needs_eoi_bits.testBit ((c2_state.irq_info 3).u_pirq_gsi))
                 || !c2_state.pirq_eoi_does_unmask) ∧
      (Hypercall.physdevEoi ((c2_state.irq_info 3).u_pirq_gsi) ∈ tr ↔
        c2_state.pirq_needs_eoi_bits.testBit ((c2_state.irq_info 3).u_pirq_gsi) = true)) :=
  ⟨rfl, c2_pirq_eoi_amended 0 3 c2_state rfl⟩

/-- C4 counterexample: port 7 is bound to the current cpu, masked and
pending, but the selector bit of its word is already set, so the
test-and-set guard in unmask_evtchn leaves evtchn_upcall_pending clear;
the claim predicts it is set in every such state. -/
theorem c4_unmask_counterexample :
    cpu_from_evtchn c4_cx_state 7 = 0 ∧
    c4_cx_state.evtchn_mask.testBit 7 = true ∧
    c4_cx_state.evtchn_pending.testBit 7 = true ∧
    (unmask_evtchn 0 7 c4_cx_state).1.evtchn_upcall_pending 0 = false := by
  decide

/-- C4 amended: for a port bound to the current cpu with mask and
pending set, unmask_evtchn issues no hypercall, clears the mask bit,
sets the selector bit of the port's word, and sets upcall_pending
provided the selector bit was previously clear (the test-and-set
guard); the UNMASK hypercall happens exactly on non-local ports, which
are otherwise untouched. -/
theorem c4_unmask_local_edge_recovery (s : EvtchnState) (cpu port : Nat)
    (hhome : cpu_from_evtchn s port = cpu)
    (hm : s.evtchn_mask.testBit port = true)
    (hp : s.evtchn_pending.testBit port = true) :
    ((unmask_evtchn cpu port s).2 = [] ∧
     (unmask_evtchn cpu port s).1.evtchn_mask.testBit port = false ∧
     ((unmask_evtchn cpu port s).1.evtchn_pending_sel cpu).testBit (port / BITS_PER_LONG) = true ∧
     ((s.evtchn_pending_sel cpu).testBit (port / BITS_PER_LONG) = false →
       (unmask_evtchn cpu port s).1.evtchn_upcall_pending cpu = true)) ∧
    (∀ s2 : EvtchnState, ∀ cpu2 port2 : Nat, cpu_from_evtchn s2 port2 ≠ cpu2 →
      unmask_evtchn cpu2 port2 s2 = (s2, [Hypercall.evtchnUnmask port2])) := by
  have hne : ¬ (cpu ≠ cpu_from_evtchn s port) := by
    rw [hhome]
    exact fun hcc => hcc rfl
  constructor
  · by_cases hold : (s.evtchn_pending_sel cpu).testBit (port / BITS_PER_LONG)
    · refine ⟨?_, ?_, ?_, ?_⟩
      · simp [unmask_evtchn, hne, hp, hold]
      · simp [unmask_evtchn, hne, hp, hold, testBit_clearBit]
      · simp [unmask_evtchn, hne, hp, hold, Function.update_same, testBit_setBit]
      · intro hcontra
        rw [hold] at hcontra
        cases hcontra
    · refine ⟨?_, ?_, ?_, ?_⟩
      · simp [unmask_evtchn, hne, hp, hold]
      · simp [unmask_evtchn, hne, hp, hold, testBit_clearBit]
      · simp [unmask_evtchn, hne, hp, hold, Function.update_same, testBit_setBit]
      · intro _
        simp [unmask_evtchn, hne, hp, hold, Function.update_same]
  · intro s2 cpu2 port2 hfar
    simp [unmask_evtchn, Ne.symm hfar]

/-- Witness for C4 amended at the concrete edge-recovery scenario
c4_w_state (spec scenario 3, port 7). -/
theorem c4_unmask_local_edge_recovery_witness :
    cpu_from_evtchn c4_w_state 7 = 0 ∧
    c4_w_state.evtchn_mask.testBit 7 = true ∧
    c4_w_state.evtchn_pending.testBit 7 = true ∧
    (unmask_evtchn 0 7 c4_w_state).2 = [] ∧
    (unmask_evtchn 0 7 c4_w_state).1.evtchn_mask.testBit 7 = false ∧
    ((unmask_evtchn 0 7 c4_w_state).1.evtchn_pending_sel 0).testBit 0 = true ∧
    (unmask_evtchn 0 7 c4_w_state).1.evtchn_upcall_pending 0 = true := by
  have h := c4_unmask_local_edge_recovery c4_w_state 0 7 (by decide) (by decide) (by decide)
  exact ⟨by decide, by decide, by decide, h.1.1, h.1.2.1, h.1.2.2.1,
    h.1.2.2.2 (by decide)⟩

/-- C8: binding is idempotent per key: a second bind of an
already-bound (virq, cpu), (ipi, cpu) or port returns the existing IRQ
with the state untouched and without issuing any hypercall (and without
consulting find_unbound_irq, whose candidate freshIrq is ignored). -/
theorem c8_bind_idempotent (s : EvtchnState)
    (freshIrq virq ipi evtchn cpuV cpuI : Nat) (hvPortV hvPortI : Option Nat) :
    (s.virq_to_irq cpuV virq ≠ -1 →
      bind_virq_to_irq freshIrq hvPortV virq cpuV s
        = some (s.virq_to_irq cpuV virq, s, [])) ∧
    (s.ipi_to_irq cpuI ipi ≠ -1 →
      bind_ipi_to_irq freshIrq hvPortI ipi cpuI s
        = some (s.ipi_to_irq cpuI ipi, s, [])) ∧
    (s.evtchn_to_irq evtchn ≠ -1 →
      bind_evtchn_to_irq freshIrq evtchn s
        = (s.evtchn_to_irq evtchn, s, [])) := by
  refine ⟨fun hb => ?_, fun hb => ?_, fun hb => ?_⟩
  · simp [bind_virq_to_irq, hb]
  · simp [bind_ipi_to_irq, hb]
  · simp [bind_evtchn_to_irq, hb]

/-- Witness for C8: rebinding the existing virq, ipi and inter-domain
bindings of c8_w_state returns IRQs 5, 6, 4 with no state change and no
hypercall, whatever the oracles would have answered. -/
theorem c8_bind_idempotent_witness :
    bind_virq_to_irq 10 (some 100) 0 1 c8_w_state = some (5, c8_w_state, []) ∧
    bind_ipi_to_irq 10 (some 101) 2 0 c8_w_state = some (6, c8_w_state, []) ∧
    bind_evtchn_to_irq 10 9 c8_w_state = (4, c8_w_state, []) := by
  have h := c8_bind_idempotent c8_w_state 10 0 2 9 1 0 (some 100) (some 101)
  exact ⟨h.1 (by decide), h.2.1 (by decide), h.2.2 (by decide)⟩


theorem toNat_ofNat (n : Nat) : (Int.ofNat n).toNat = n := rfl

theorem bind_evtchn_to_cpu_spec (chn cpu : Nat) (s : EvtchnState) (irq : Nat)
    (hmap : s.evtchn_to_irq chn = Int.ofNat irq) :
    ∃ s2, bind_evtchn_to_cpu chn cpu s = some s2 ∧
      s2.evtchn_pending = s.evtchn_pending ∧
      s2.evtchn_mask = s.evtchn_mask ∧
      s2.evtchn_to_irq = s.evtchn_to_irq ∧
      s2.virq_to_irq = s.virq_to_irq ∧
      s2.ipi_to_irq = s.ipi_to_irq ∧
      s2.irq_info irq = { s.irq_info irq with cpu := cpu } ∧
      (∀ j, j ≠ irq → s2.irq_info j = s.irq_info j) ∧
      (s2.cpu_evtchn_mask cpu).testBit chn = true ∧
      (∀ c, c ≠ cpu → (s2.cpu_evtchn_mask c).testBit chn
        = ((s.cpu_evtchn_mask c).testBit chn && !decide (c = cpu_from_irq s irq))) := by
  have key : bind_evtchn_to_cpu chn cpu s
      = some { s with
          cpu_evtchn_mask := Function.update
            (Function.update s.cpu_evtchn_mask (cpu_from_irq s irq)
              (clearBit (s.cpu_evtchn_mask (cpu_from_irq s irq)) chn))
            cpu
            (setBit (Function.update s.cpu_evtchn_mask (cpu_from_irq s irq)
              (clearBit (s.cpu_evtchn_mask (cpu_from_irq s irq)) chn) cpu) chn),
          irq_info := Function.update s.irq_info irq
            { s.irq_info irq with cpu := cpu } } := by
    simp only [bind_evtchn_to_cpu]
    simp only [hmap, toNat_ofNat]
    rw [if_neg (ofNat_ne_neg_one irq)]
    rw [hmap, toNat_ofNat]
  refine ⟨_, key, rfl, rfl, rfl, rfl, rfl, ?_, ?_, ?_, ?_⟩
  · simp only [Function.update_same]
  · intro j hj
    simp only [Function.update_noteq hj]
  · simp only [Function.update_same, testBit_setBit]
    simp
  · intro c hc
    simp only [Function.update_noteq hc]
    by_cases hco : c = cpu_from_irq s irq
    · rw [hco, Function.update_same, testBit_clearBit]
      simp [hco]
    · rw [Function.update_noteq hco]
      simp [hco]

theorem unbind_from_irq_bound (s : EvtchnState) (irq e : Nat)
    (he : evtchn_from_irq s irq = e) (hne : e ≠ 0)
    (hmap : s.evtchn_to_irq e = Int.ofNat irq) :
    ∃ s', unbind_from_irq true irq s = some (s', [Hypercall.evtchnClose e]) ∧
      (s'.irq_info irq).type = XenIrqType.unbound ∧
      s'.evtchn_to_irq e = -1 ∧
      (∀ p, p ≠ e → s'.evtchn_to_irq p = s.evtchn_to_irq p) ∧
      ((s.irq_info irq).type = XenIrqType.virq →
        s'.virq_to_irq (cpu_from_irq s irq) ((s.irq_info irq).u_virq) = -1) ∧
      ((s.irq_info irq).type = XenIrqType.ipi →
        s'.ipi_to_irq (cpu_from_irq s irq) ((s.irq_info irq).u_ipi) = -1) ∧
      (s'.cpu_evtchn_mask 0).testBit e = true ∧
      (∀ c, c ≠ 0 → (s'.cpu_evtchn_mask c).testBit e
        = ((s.cpu_evtchn_mask c).testBit e && !decide (c = cpu_from_irq s irq))) := by
  subst he
  have hvalid : VALID_EVTCHN (evtchn_from_irq s irq) = true := by
    simp [VALID_EVTCHN, hne]
  have hcpuE : cpu_from_evtchn s (evtchn_from_irq s irq) = cpu_from_irq s irq := by
    simp [cpu_from_evtchn, hmap, ofNat_ne_neg_one irq, toNat_ofNat]
  by_cases ht1 : (s.irq_info irq).type = XenIrqType.virq
  · obtain ⟨s2, hb, hpend2, hmask2, hmap2, hvirq2, hipi2, hinfo2, hinfoj2, hm0, hmc⟩ :=
      bind_evtchn_to_cpu_spec (evtchn_from_irq s irq) 0 { s with virq_to_irq := Function.update s.virq_to_irq (cpu_from_irq s irq) (Function.update (s.virq_to_irq (cpu_from_irq s irq)) ((s.irq_info irq).u_virq) (-1)) } irq hmap
    have hrun : unbind_from_irq true irq s = some
        (unbind_demote irq
          { s2 with evtchn_to_irq := Function.update s2.evtchn_to_irq (evtchn_from_irq s irq) (-1) },
         [Hypercall.evtchnClose (evtchn_from_irq s irq)]) := by
      simp only [unbind_from_irq]
      simp only [hvalid, ht1, hcpuE, if_true, eq_self_iff_true]
      rw [hb]
      rfl
    have hdem : unbind_demote irq
        { s2 with evtchn_to_irq := Function.update s2.evtchn_to_irq (evtchn_from_irq s irq) (-1) }
        = { s2 with
            evtchn_to_irq := Function.update s2.evtchn_to_irq (evtchn_from_irq s irq) (-1),
            irq_info := Function.update s2.irq_info irq mk_unbound_info } := by
      unfold unbind_demote
      rw [if_pos]
      show (s2.irq_info irq).type ≠ XenIrqType.unbound
      rw [hinfo2]
      show (s.irq_info irq).type ≠ XenIrqType.unbound
      rw [ht1]
      decide
    rw [hdem] at hrun
    refine ⟨_, hrun, ?_, ?_, ?_, ?_, ?_, ?_, ?_⟩
    · show (Function.update s2.irq_info irq mk_unbound_info irq).type = XenIrqType.unbound
      rw [Function.update_same]
      rfl
    · show Function.update s2.evtchn_to_irq (evtchn_from_irq s irq) (-1) (evtchn_from_irq s irq) = -1
      rw [Function.update_same]
    · intro p hp
      show Function.update s2.evtchn_to_irq (evtchn_from_irq s irq) (-1) p = s.evtchn_to_irq p
      rw [Function.update_noteq hp, hmap2]
    · intro _
      show s2.virq_to_irq (cpu_from_irq s irq) ((s.irq_info irq).u_virq) = -1
      rw [hvirq2]
      simp [Function.update_same]
    · intro hipi
      rw [ht1] at hipi
      exact absurd hipi (by decide)
    · exact hm0
    · intro c hc
      exact hmc c hc
  · by_cases ht2 : (s.irq_info irq).type = XenIrqType.ipi
    · obtain ⟨s2, hb, hpend2, hmask2, hmap2, hvirq2, hipi2, hinfo2, hinfoj2, hm0, hmc⟩ :=
        bind_evtchn_to_cpu_spec (evtchn_from_irq s irq) 0 { s with ipi_to_irq := Function.update s.ipi_to_irq (cpu_from_irq s irq) (Function.update (s.ipi_to_irq (cpu_from_irq s irq)) ((s.irq_info irq).u_ipi) (-1)) } irq hmap
      have hrun : unbind_from_irq true irq s = some
          (unbind_demote irq
            { s2 with evtchn_to_irq := Function.update s2.evtchn_to_irq (evtchn_from_irq s irq) (-1) },
           [Hypercall.evtchnClose (evtchn_from_irq s irq)]) := by
        simp only [unbind_from_irq]
        simp only [hvalid, hcpuE, if_true, eq_self_iff_true]
        rw [if_neg ht1, if_pos ht2]
        rw [hb]
        rfl
      have hdem : unbind_demote irq
          { s2 with evtchn_to_irq := Function.update s2.evtchn_to_irq (evtchn_from_irq s irq) (-1) }
          = { s2 with
              evtchn_to_irq := Function.update s2.evtchn_to_irq (evtchn_from_irq s irq) (-1),
              irq_info := Function.update s2.irq_info irq mk_unbound_info } := by
        unfold unbind_demote
        rw [if_pos]
        show (s2.irq_info irq).type ≠ XenIrqType.unbound
        rw [hinfo2]
        show (s.irq_info irq).type ≠ XenIrqType.unbound
        rw [ht2]
        decide
      rw [hdem] at hrun
      refine ⟨_, hrun, ?_, ?_, ?_, ?_, ?_, ?_, ?_⟩
      · show (Function.update s2.irq_info irq mk_unbound_info irq).type = XenIrqType.unbound
        rw [Function.update_same]
        rfl
      · show Function.update s2.evtchn_to_irq (evtchn_from_irq s irq) (-1) (evtchn_from_irq s irq) = -1
        rw [Function.update_same]
      · intro p hp
        show Function.update s2.evtchn_to_irq (evtchn_from_irq s irq) (-1) p = s.evtchn_to_irq p
        rw [Function.update_noteq hp, hmap2]
      · intro hvirq
        exact absurd hvirq ht1
      · intro _
        show s2.ipi_to_irq (cpu_from_irq s irq) ((s.irq_info irq).u_ipi) = -1
        rw [hipi2]
        simp [Function.update_same]
      · exact hm0
      · intro c hc
        exact hmc c hc
    · obtain ⟨s2, hb, hpend2, hmask2, hmap2, hvirq2, hipi2, hinfo2, hinfoj2, hm0, hmc⟩ :=
        bind_evtchn_to_cpu_spec (evtchn_from_irq s irq) 0 s irq hmap
      have hrun : unbind_from_irq true irq s = some
          (unbind_demote irq
            { s2 with evtchn_to_irq := Function.update s2.evtchn_to_irq (evtchn_from_irq s irq) (-1) },
           [Hypercall.evtchnClose (evtchn_from_irq s irq)]) := by
        simp only [unbind_from_irq]
        simp only [hvalid, hcpuE, if_true, eq_self_iff_true]
        rw [if_neg ht1, if_neg ht2]
        rw [hb]
        rfl
      have htype2 : (s2.irq_info irq).type = (s.irq_info irq).type := by
        rw [hinfo2]
      by_cases hu : (s.irq_info irq).type = XenIrqType.unbound
      · have hdem : unbind_demote irq
            { s2 with evtchn_to_irq := Function.update s2.evtchn_to_irq (evtchn_from_irq s irq) (-1) }
            = { s2 with evtchn_to_irq := Function.update s2.evtchn_to_irq (evtchn_from_irq s irq) (-1) } := by
          unfold unbind_demote
          rw [if_neg]
          show ¬ (s2.irq_info irq).type ≠ XenIrqType.unbound
          rw [htype2, hu]
          exact fun hcc => hcc rfl
        rw [hdem] at hrun
        refine ⟨_, hrun, ?_, ?_, ?_, ?_, ?_, ?_, ?_⟩
        · show (s2.irq_info irq).type = XenIrqType.unbound
          rw [htype2, hu]
        · show Function.update s2.evtchn_to_irq (evtchn_from_irq s irq) (-1) (evtchn_from_irq s irq) = -1
          rw [Function.update_same]
        · intro p hp
          show Function.update s2.evtchn_to_irq (evtchn_from_irq s irq) (-1) p = s.evtchn_to_irq p
          rw [Function.update_noteq hp, hmap2]
        · intro hvirq
          exact absurd hvirq ht1
        · intro hipi
          exact absurd hipi ht2
        · exact hm0
        · intro c hc
          exact hmc c hc
      · have hdem : unbind_demote irq
            { s2 with evtchn_to_irq := Function.update s2.evtchn_to_irq (evtchn_from_irq s irq) (-1) }
            = { s2 with
                evtchn_to_irq := Function.update s2.evtchn_to_irq (evtchn_from_irq s irq) (-1),
                irq_info := Function.update s2.irq_info irq mk_unbound_info } := by
          unfold unbind_demote
          rw [if_pos]
          show (s2.irq_info irq).type ≠ XenIrqType.unbound
          rw [htype2]
          exact hu
        rw [hdem] at hrun
        refine ⟨_, hrun, ?_, ?_, ?_, ?_, ?_, ?_, ?_⟩
        · show (Function.update s2.irq_info irq mk_unbound_info irq).type = XenIrqType.unbound
          rw [Function.update_same]
          rfl
        · show Function.update s2.evtchn_to_irq (evtchn_from_irq s irq) (-1) (evtchn_from_irq s irq) = -1
          rw [Function.update_same]
        · intro p hp
          show Function.update s2.evtchn_to_irq (evtchn_from_irq s irq) (-1) p = s.evtchn_to_irq p
          rw [Function.update_noteq hp, hmap2]
        · intro hvirq
          exact absurd hvirq ht1
        · intro hipi
          exact absurd hipi ht2
        · exact hm0
        · intro c hc
          exact hmc c hc

theorem unbind_demote_evtchn_to_irq (irq : Nat) (s : EvtchnState) :
    (unbind_demote irq s).evtchn_to_irq = s.evtchn_to_irq := by
  unfold unbind_demote
  split <;> rfl

theorem unbind_demote_virq_to_irq (irq : Nat) (s : EvtchnState) :
    (unbind_demote irq s).virq_to_irq = s.virq_to_irq := by
  unfold unbind_demote
  split <;> rfl

theorem unbind_demote_ipi_to_irq (irq : Nat) (s : EvtchnState) :
    (unbind_demote irq s).ipi_to_irq = s.ipi_to_irq := by
  unfold unbind_demote
  split <;> rfl

theorem unbind_demote_type_unbound (irq : Nat) (s : EvtchnState) :
    ((unbind_demote irq s).irq_info irq).type = XenIrqType.unbound := by
  unfold unbind_demote
  by_cases ht : (s.irq_info irq).type ≠ XenIrqType.unbound
  · rw [if_pos ht]
    show (Function.update s.irq_info irq mk_unbound_info irq).type = _
    rw [Function.update_same]
    rfl
  · rw [if_neg ht]
    exact not_not.mp ht

/-- C5: after unbind_from_irq(irq) on a state satisfying the table
invariants (the reverse map points back at irq exactly on its own port;
the port is set on exactly its home cpu's mask; per-cpu virq/ipi
entries are only populated while the port is valid), the IrqInfo is
Unbound, no port maps to irq, the per-cpu virq/ipi entry of the binding
is -1, CLOSE(port) was issued iff the irq had a valid port, and the
closed port now sits on cpu 0's mask only. -/
theorem c5_unbind_from_irq (s : EvtchnState) (irq ncpus : Nat)
    (huniq : ∀ p, p < NR_EVENT_CHANNELS → s.evtchn_to_irq p = Int.ofNat irq →
      (evtchn_from_irq s irq ≠ 0 ∧ p = evtchn_from_irq s irq))
    (hself : evtchn_from_irq s irq ≠ 0 →
      s.evtchn_to_irq (evtchn_from_irq s irq) = Int.ofNat irq)
    (hpart : evtchn_from_irq s irq ≠ 0 → ∀ c, c < ncpus →
      (s.cpu_evtchn_mask c).testBit (evtchn_from_irq s irq)
        = decide (c = cpu_from_irq s irq))
    (hvirq_reach : (s.irq_info irq).type = XenIrqType.virq →
      evtchn_from_irq s irq = 0 →
      s.virq_to_irq (cpu_from_irq s irq) ((s.irq_info irq).u_virq) = -1)
    (hipi_reach : (s.irq_info irq).type = XenIrqType.ipi →
      evtchn_from_irq s irq = 0 →
      s.ipi_to_irq (cpu_from_irq s irq) ((s.irq_info irq).u_ipi) = -1) :
    ∃ s' tr, unbind_from_irq true irq s = some (s', tr) ∧
      (s'.irq_info irq).type = XenIrqType.unbound ∧
      (∀ p, p < NR_EVENT_CHANNELS → s'.evtchn_to_irq p ≠ Int.ofNat irq) ∧
      ((s.irq_info irq).type = XenIrqType.virq →
        s'.virq_to_irq (cpu_from_irq s irq) ((s.irq_info irq).u_virq) = -1) ∧
      ((s.irq_info irq).type = XenIrqType.ipi →
        s'.ipi_to_irq (cpu_from_irq s irq) ((s.irq_info irq).u_ipi) = -1) ∧
      (tr = if evtchn_from_irq s irq ≠ 0
        then [Hypercall.evtchnClose (evtchn_from_irq s irq)] else []) ∧
      (evtchn_from_irq s irq ≠ 0 → ∀ c, c < ncpus →
        (s'.cpu_evtchn_mask c).testBit (evtchn_from_irq s irq) = decide (c = 0)) := by
  by_cases hz : evtchn_from_irq s irq = 0
  · have hrun : unbind_from_irq true irq s = some (unbind_demote irq s, []) := by
      unfold unbind_from_irq
      rw [if_neg ?hv]
      case hv => simp [VALID_EVTCHN, hz]
    refine ⟨_, _, hrun, ?_, ?_, ?_, ?_, ?_, ?_⟩
    · exact unbind_demote_type_unbound irq s
    · intro p hp hcontra
      rw [unbind_demote_evtchn_to_irq] at hcontra
      exact absurd hz (huniq p hp hcontra).1
    · intro hv
      rw [unbind_demote_virq_to_irq]
      exact hvirq_reach hv hz
    · intro hi
      rw [unbind_demote_ipi_to_irq]
      exact hipi_reach hi hz
    · simp [hz]
    · intro hcon
      exact absurd hz hcon
  · obtain ⟨s', hrun, hty, hmape, hmapo, hvq, hiq, hm0, hmc⟩ :=
      unbind_from_irq_bound s irq (evtchn_from_irq s irq) rfl hz (hself hz)
    refine ⟨s', _, hrun, hty, ?_, ?_, ?_, ?_, ?_⟩
    · intro p hp hcontra
      by_cases hpe : p = evtchn_from_irq s irq
      · subst hpe
        rw [hmape] at hcontra
        exact ofNat_ne_neg_one irq hcontra.symm
      · rw [hmapo p hpe] at hcontra
        exact hpe (huniq p hp hcontra).2
    · exact hvq
    · exact hiq
    · rw [if_pos hz]
    · intro _ c hcn
      by_cases hc0 : c = 0
      · subst hc0
        rw [hm0]
        simp
      · rw [hmc c hc0, hpart hz c hcn]
        by_cases hcc : c = cpu_from_irq s irq
        · rw [hcc] at hc0
          simp [hcc, hc0]
        · simp [hcc, hc0]

/-- Witness for C5: unbinding the Virq binding of c5_w_state (irq 3,
port 42, virq 5, cpu 0) demotes the IrqInfo, clears the reverse maps,
issues CLOSE(42) and leaves port 42 on cpu 0's mask only. -/
theorem c5_unbind_from_irq_witness :
    (unbind_from_irq true 3 c5_w_state).map
        (fun r => ((r.1.irq_info 3).type, r.1.virq_to_irq 0 5, r.2,
          (r.1.cpu_evtchn_mask 0).testBit 42, (r.1.cpu_evtchn_mask 1).testBit 42,
          decide (r.1.evtchn_to_irq 42 = Int.ofNat 3)))
      = some (XenIrqType.unbound, -1, [Hypercall.evtchnClose 42], true, false, false) := by
  obtain ⟨s', tr, hrun, hty, hmap, hvq, hiq, htr, hmask⟩ :=
    c5_unbind_from_irq c5_w_state 3 2 (by decide) (by decide) (by decide)
      (by decide) (by decide)
  rw [hrun]
  have hv' : s'.virq_to_irq 0 5 = -1 := hvq (by decide)
  have htr' : tr = [Hypercall.evtchnClose 42] := htr.trans (by decide)
  have hm0' : (s'.cpu_evtchn_mask 0).testBit 42 = true :=
    (hmask (by decide) 0 (by decide)).trans (by decide)
  have hm1' : (s'.cpu_evtchn_mask 1).testBit 42 = false :=
    (hmask (by decide) 1 (by decide)).trans (by decide)
  have hne' : decide (s'.evtchn_to_irq 42 = Int.ofNat 3) = false :=
    decide_eq_false (hmap 42 (by decide))
  show some ((s'.irq_info 3).type, s'.virq_to_irq 0 5, tr,
      (s'.cpu_evtchn_mask 0).testBit 42, (s'.cpu_evtchn_mask 1).testBit 42,
      decide (s'.evtchn_to_irq 42 = Int.ofNat 3)) = _
  rw [hty, hv', htr', hm0', hm1', hne']


/-- C7: for each bind_X_to_irqhandler variant on the fresh-binding
path, when the bind succeeds but host-IRQ-core registration fails with
a nonzero retval, the function rolls the binding back through
unbind_from_irq (the CLOSE hypercall appears in the trace, the fresh
IrqInfo is demoted to unbound and the port mapping is cleared) and
returns retval unchanged; and when registration succeeds (retval = 0)
the function returns the bound IRQ, with the port-to-irq mapping and
the typed IrqInfo installed. -/
theorem c7_bind_irqhandler_rollback (s : EvtchnState)
    (freshIrq evtchn lport port iport virq ipi cpuV cpuI rdom rport : Nat)
    (retval : Int) :
    (s.evtchn_to_irq evtchn = -1 → evtchn ≠ 0 →
      (retval ≠ 0 →
        ∃ s' tr, bind_evtchn_to_irqhandler freshIrq retval true evtchn s
            = some (retval, s', tr) ∧
          (s'.irq_info freshIrq).type = XenIrqType.unbound ∧
          s'.evtchn_to_irq evtchn = -1 ∧ Hypercall.evtchnClose evtchn ∈ tr) ∧
      (retval = 0 →
        ∃ s' tr, bind_evtchn_to_irqhandler freshIrq retval true evtchn s
            = some (Int.ofNat freshIrq, s', tr) ∧
          s'.evtchn_to_irq evtchn = Int.ofNat freshIrq ∧
          (s'.irq_info freshIrq).type = XenIrqType.evtchn)) ∧
    (s.evtchn_to_irq lport = -1 → lport ≠ 0 →
      (retval ≠ 0 →
        ∃ s' tr, bind_interdomain_evtchn_to_irqhandler freshIrq retval true
              (Except.ok lport) rdom rport s = some (retval, s', tr) ∧
          (s'.irq_info freshIrq).type = XenIrqType.unbound ∧
          s'.evtchn_to_irq lport = -1 ∧ Hypercall.evtchnClose lport ∈ tr) ∧
      (retval = 0 →
        ∃ s' tr, bind_interdomain_evtchn_to_irqhandler freshIrq retval true
              (Except.ok lport) rdom rport s = some (Int.ofNat freshIrq, s', tr) ∧
          s'.evtchn_to_irq lport = Int.ofNat freshIrq ∧
          (s'.irq_info freshIrq).type = XenIrqType.evtchn)) ∧
    (s.virq_to_irq cpuV virq = -1 → port ≠ 0 →
      (retval ≠ 0 →
        ∃ s' tr, bind_virq_to_irqhandler freshIrq retval true (some port) virq cpuV s
            = some (retval, s', tr) ∧
          (s'.irq_info freshIrq).type = XenIrqType.unbound ∧
          s'.evtchn_to_irq port = -1 ∧ s'.virq_to_irq cpuV virq = -1 ∧
          Hypercall.evtchnClose port ∈ tr) ∧
      (retval = 0 →
        ∃ s' tr, bind_virq_to_irqhandler freshIrq retval true (some port) virq cpuV s
            = some (Int.ofNat freshIrq, s', tr) ∧
          s'.evtchn_to_irq port = Int.ofNat freshIrq ∧
          s'.virq_to_irq cpuV virq = Int.ofNat freshIrq ∧
          (s'.irq_info freshIrq).type = XenIrqType.virq)) ∧
    (s.ipi_to_irq cpuI ipi = -1 → iport ≠ 0 →
      (retval ≠ 0 →
        ∃ s' tr, bind_ipi_to_irqhandler freshIrq retval true (some iport) ipi cpuI s
            = some (retval, s', tr) ∧
          (s'.irq_info freshIrq).type = XenIrqType.unbound ∧
          s'.evtchn_to_irq iport = -1 ∧ s'.ipi_to_irq cpuI ipi = -1 ∧
          Hypercall.evtchnClose iport ∈ tr) ∧
      (retval = 0 →
        ∃ s' tr, bind_ipi_to_irqhandler freshIrq retval true (some iport) ipi cpuI s
            = some (Int.ofNat freshIrq, s', tr) ∧
          s'.evtchn_to_irq iport = Int.ofNat freshIrq ∧
          s'.ipi_to_irq cpuI ipi = Int.ofNat freshIrq ∧
          (s'.irq_info freshIrq).type = XenIrqType.ipi)) := by
  refine ⟨?_, ?_, ?_, ?_⟩
  · -- event-channel variant
    intro hfresh hev
    have hbe : bind_evtchn_to_irq freshIrq evtchn s
        = (Int.ofNat freshIrq, { s with evtchn_to_irq := Function.update s.evtchn_to_irq evtchn (Int.ofNat freshIrq), irq_info := Function.update s.irq_info freshIrq (mk_evtchn_info evtchn) }, []) := by
      simp only [bind_evtchn_to_irq]
      rw [if_pos hfresh]
    constructor
    · intro hret
      obtain ⟨s', hrun, hty, hmape, hmapo, hvq, hiq, hm0, hmc⟩ :=
        unbind_from_irq_bound { s with evtchn_to_irq := Function.update s.evtchn_to_irq evtchn (Int.ofNat freshIrq), irq_info := Function.update s.irq_info freshIrq (mk_evtchn_info evtchn) } freshIrq evtchn
          (by simp [evtchn_from_irq, Function.update_same, mk_evtchn_info]) hev
          (by simp [Function.update_same])
      refine ⟨s', [] ++ [Hypercall.evtchnClose evtchn], ?_, hty, hmape, by simp⟩
      simp only [bind_evtchn_to_irqhandler]
      rw [hbe]
      simp only []
      rw [if_pos hret, toNat_ofNat, hrun]
      rfl
    · intro h0
      refine ⟨{ s with evtchn_to_irq := Function.update s.evtchn_to_irq evtchn (Int.ofNat freshIrq), irq_info := Function.update s.irq_info freshIrq (mk_evtchn_info evtchn) }, [], ?_, ?_, ?_⟩
      · simp only [bind_evtchn_to_irqhandler]
        rw [hbe]
        simp only []
        rw [if_neg (fun hc => hc h0)]
      · simp [Function.update_same]
      · simp [Function.update_same, mk_evtchn_info]
  · -- inter-domain variant
    intro hfresh hev
    have hbe : bind_evtchn_to_irq freshIrq lport s
        = (Int.ofNat freshIrq, { s with evtchn_to_irq := Function.update s.evtchn_to_irq lport (Int.ofNat freshIrq), irq_info := Function.update s.irq_info freshIrq (mk_evtchn_info lport) }, []) := by
      simp only [bind_evtchn_to_irq]
      rw [if_pos hfresh]
    constructor
    · intro hret
      obtain ⟨s', hrun, hty, hmape, hmapo, hvq, hiq, hm0, hmc⟩ :=
        unbind_from_irq_bound { s with evtchn_to_irq := Function.update s.evtchn_to_irq lport (Int.ofNat freshIrq), irq_info := Function.update s.irq_info freshIrq (mk_evtchn_info lport) } freshIrq lport
          (by simp [evtchn_from_irq, Function.update_same, mk_evtchn_info]) hev
          (by simp [Function.update_same])
      refine ⟨s', ([Hypercall.evtchnBindInterdomain rdom rport] ++ []) ++ [Hypercall.evtchnClose lport], ?_, hty, hmape, by simp⟩
      simp only [bind_interdomain_evtchn_to_irqhandler, bind_interdomain_evtchn_to_irq]
      rw [hbe]
      simp only []
      rw [if_neg ?hpos, if_pos hret, toNat_ofNat, hrun]
      case hpos =>
        show ¬ (Int.ofNat freshIrq < 0)
        exact not_lt.mpr (Int.ofNat_nonneg freshIrq)
      rfl
    · intro h0
      refine ⟨{ s with evtchn_to_irq := Function.update s.evtchn_to_irq lport (Int.ofNat freshIrq), irq_info := Function.update s.irq_info freshIrq (mk_evtchn_info lport) }, [Hypercall.evtchnBindInterdomain rdom rport] ++ [], ?_, ?_, ?_⟩
      · simp only [bind_interdomain_evtchn_to_irqhandler, bind_interdomain_evtchn_to_irq]
        rw [hbe]
        simp only []
        rw [if_neg ?hpos2, if_neg (fun hc => hc h0)]
        case hpos2 =>
          show ¬ (Int.ofNat freshIrq < 0)
          exact not_lt.mpr (Int.ofNat_nonneg freshIrq)
      · simp [Function.update_same]
      · simp [Function.update_same, mk_evtchn_info]
  · -- virq variant
    intro hfresh hpv
    obtain ⟨s4, hb4, hpend4, hmask4, hmap4, hvirq4, hipi4, hinfo4, hinfoj4, hm04, hmc4⟩ :=
      bind_evtchn_to_cpu_spec port cpuV { s with evtchn_to_irq := Function.update s.evtchn_to_irq port (Int.ofNat freshIrq), irq_info := Function.update s.irq_info freshIrq (mk_virq_info port virq), virq_to_irq := Function.update s.virq_to_irq cpuV (Function.update (s.virq_to_irq cpuV) virq (Int.ofNat freshIrq)) } freshIrq
        (by simp [Function.update_same])
    have hbv : bind_virq_to_irq freshIrq (some port) virq cpuV s
        = some (Int.ofNat freshIrq, s4, [Hypercall.evtchnBindVirq virq cpuV]) := by
      simp only [bind_virq_to_irq]
      rw [if_pos hfresh]
      rw [hb4]
      rfl
    have he4 : evtchn_from_irq s4 freshIrq = port := by
      show (s4.irq_info freshIrq).evtchn = port
      rw [hinfo4]
      simp [Function.update_same, mk_virq_info]
    have hmap4p : s4.evtchn_to_irq port = Int.ofNat freshIrq := by
      rw [hmap4]
      simp [Function.update_same]
    have ht4 : (s4.irq_info freshIrq).type = XenIrqType.virq := by
      rw [hinfo4]
      simp [Function.update_same, mk_virq_info]
    constructor
    · intro hret
      obtain ⟨s', hrun, hty, hmape, hmapo, hvq, hiq, hm0, hmc⟩ :=
        unbind_from_irq_bound s4 freshIrq port he4 hpv hmap4p
      have hcpu4 : cpu_from_irq s4 freshIrq = cpuV := by
        show (s4.irq_info freshIrq).cpu = cpuV
        rw [hinfo4]
      have hu4 : (s4.irq_info freshIrq).u_virq = virq := by
        rw [hinfo4]
        simp [Function.update_same, mk_virq_info]
      have hvcleared : s'.virq_to_irq cpuV virq = -1 := by
        have h := hvq ht4
        rw [hcpu4, hu4] at h
        exact h
      refine ⟨s', [Hypercall.evtchnBindVirq virq cpuV] ++ [Hypercall.evtchnClose port], ?_, hty, hmape, hvcleared, by simp⟩
      simp only [bind_virq_to_irqhandler]
      rw [hbv]
      simp only []
      rw [if_pos hret, toNat_ofNat, hrun]
      rfl
    · intro h0
      refine ⟨s4, [Hypercall.evtchnBindVirq virq cpuV], ?_, hmap4p, ?_, ht4⟩
      · simp only [bind_virq_to_irqhandler]
        rw [hbv]
        simp only []
        rw [if_neg (fun hc => hc h0)]
      · rw [hvirq4]
        simp [Function.update_same]
  · -- ipi variant
    intro hfresh hpv
    obtain ⟨s4, hb4, hpend4, hmask4, hmap4, hvirq4, hipi4, hinfo4, hinfoj4, hm04, hmc4⟩ :=
      bind_evtchn_to_cpu_spec iport cpuI { s with evtchn_to_irq := Function.update s.evtchn_to_irq iport (Int.ofNat freshIrq), irq_info := Function.update s.irq_info freshIrq (mk_ipi_info iport ipi), ipi_to_irq := Function.update s.ipi_to_irq cpuI (Function.update (s.ipi_to_irq cpuI) ipi (Int.ofNat freshIrq)) } freshIrq
        (by simp [Function.update_same])
    have hbv : bind_ipi_to_irq freshIrq (some iport) ipi cpuI s
        = some (Int.ofNat freshIrq, s4, [Hypercall.evtchnBindIpi cpuI]) := by
      simp only [bind_ipi_to_irq]
      rw [if_pos hfresh]
      rw [hb4]
      rfl
    have he4 : evtchn_from_irq s4 freshIrq = iport := by
      show (s4.irq_info freshIrq).evtchn = iport
      rw [hinfo4]
      simp [Function.update_same, mk_ipi_info]
    have hmap4p : s4.evtchn_to_irq iport = Int.ofNat freshIrq := by
      rw [hmap4]
      simp [Function.update_same]
    have ht4 : (s4.irq_info freshIrq).type = XenIrqType.ipi := by
      rw [hinfo4]
      simp [Function.update_same, mk_ipi_info]
    constructor
    · intro hret
      obtain ⟨s', hrun, hty, hmape, hmapo, hvq, hiq, hm0, hmc⟩ :=
        unbind_from_irq_bound s4 freshIrq iport he4 hpv hmap4p
      have hcpu4 : cpu_from_irq s4 freshIrq = cpuI := by
        show (s4.irq_info freshIrq).cpu = cpuI
        rw [hinfo4]
      have hu4 : (s4.irq_info freshIrq).u_ipi = ipi := by
        rw [hinfo4]
        simp [Function.update_same, mk_ipi_info]
      have hicleared : s'.ipi_to_irq cpuI ipi = -1 := by
        have h := hiq ht4
        rw [hcpu4, hu4] at h
        exact h
      refine ⟨s', [Hypercall.evtchnBindIpi cpuI] ++ [Hypercall.evtchnClose iport], ?_, hty, hmape, hicleared, by simp⟩
      simp only [bind_ipi_to_irqhandler]
      rw [hbv]
      simp only []
      rw [if_neg ?hpos, if_pos hret, toNat_ofNat, hrun]
      case hpos =>
        show ¬ (Int.ofNat freshIrq < 0)
        exact not_lt.mpr (Int.ofNat_nonneg freshIrq)
      rfl
    · intro h0
      refine ⟨s4, [Hypercall.evtchnBindIpi cpuI], ?_, hmap4p, ?_, ht4⟩
      · simp only [bind_ipi_to_irqhandler]
        rw [hbv]
        simp only []
        rw [if_neg ?hpos2, if_neg (fun hc => hc h0)]
        case hpos2 =>
          show ¬ (Int.ofNat freshIrq < 0)
          exact not_lt.mpr (Int.ofNat_nonneg freshIrq)
      · rw [hipi4]
        simp [Function.update_same]


/-- Witness for C7: all four handler-registration variants at concrete
inputs on the quiescent state, once with registration failing with -5
(rollback observed) and once with registration succeeding with 0 (the
bound IRQ 10 returned and the mappings installed). -/
theorem c7_bind_irqhandler_rollback_witness :
    (bind_evtchn_to_irqhandler 10 (-5) true 4 base_state).map
        (fun r => (r.1, (r.2.1.irq_info 10).type, r.2.1.evtchn_to_irq 4,
          decide (Hypercall.evtchnClose 4 ∈ r.2.2)))
      = some (-5, XenIrqType.unbound, -1, true) ∧
    (bind_interdomain_evtchn_to_irqhandler 10 (-5) true (Except.ok 6) 7 8 base_state).map
        (fun r => (r.1, (r.2.1.irq_info 10).type, r.2.1.evtchn_to_irq 6,
          decide (Hypercall.evtchnClose 6 ∈ r.2.2)))
      = some (-5, XenIrqType.unbound, -1, true) ∧
    (bind_virq_to_irqhandler 10 (-5) true (some 100) 2 0 base_state).map
        (fun r => (r.1, (r.2.1.irq_info 10).type, r.2.1.evtchn_to_irq 100,
          r.2.1.virq_to_irq 0 2, decide (Hypercall.evtchnClose 100 ∈ r.2.2)))
      = some (-5, XenIrqType.unbound, -1, -1, true) ∧
    (bind_ipi_to_irqhandler 10 (-5) true (some 101) 1 0 base_state).map
        (fun r => (r.1, (r.2.1.irq_info 10).type, r.2.1.evtchn_to_irq 101,
          r.2.1.ipi_to_irq 0 1, decide (Hypercall.evtchnClose 101 ∈ r.2.2)))
      = some (-5, XenIrqType.unbound, -1, -1, true) ∧
    (bind_evtchn_to_irqhandler 10 0 true 4 base_state).map
        (fun r => (r.1, r.2.1.evtchn_to_irq 4, (r.2.1.irq_info 10).type))
      = some (10, 10, XenIrqType.evtchn) ∧
    (bind_interdomain_evtchn_to_irqhandler 10 0 true (Except.ok 6) 7 8 base_state).map
        (fun r => (r.1, r.2.1.evtchn_to_irq 6, (r.2.1.irq_info 10).type))
      = some (10, 10, XenIrqType.evtchn) ∧
    (bind_virq_to_irqhandler 10 0 true (some 100) 2 0 base_state).map
        (fun r => (r.1, r.2.1.evtchn_to_irq 100, r.2.1.virq_to_irq 0 2,
          (r.2.1.irq_info 10).type))
      = some (10, 10, 10, XenIrqType.virq) ∧
    (bind_ipi_to_irqhandler 10 0 true (some 101) 1 0 base_state).map
        (fun r => (r.1, r.2.1.evtchn_to_irq 101, r.2.1.ipi_to_irq 0 1,
          (r.2.1.irq_info 10).type))
      = some (10, 10, 10, XenIrqType.ipi) := by
  obtain ⟨h1, h2, h3, h4⟩ :=
    c7_bind_irqhandler_rollback base_state 10 4 6 100 101 2 1 0 0 7 8 (-5)
  obtain ⟨g1, g2, g3, g4⟩ :=
    c7_bind_irqhandler_rollback base_state 10 4 6 100 101 2 1 0 0 7 8 0
  refine ⟨?_, ?_, ?_, ?_, ?_, ?_, ?_, ?_⟩
  · obtain ⟨s', tr, heq, hty, hmape, hmem⟩ := (h1 (by decide) (by decide)).1 (by decide)
    rw [heq]
    show some ((-5 : Int), (s'.irq_info 10).type, s'.evtchn_to_irq 4,
      decide (Hypercall.evtchnClose 4 ∈ tr)) = _
    rw [hty, hmape, decide_eq_true hmem]
  · obtain ⟨s', tr, heq, hty, hmape, hmem⟩ := (h2 (by decide) (by decide)).1 (by decide)
    rw [heq]
    show some ((-5 : Int), (s'.irq_info 10).type, s'.evtchn_to_irq 6,
      decide (Hypercall.evtchnClose 6 ∈ tr)) = _
    rw [hty, hmape, decide_eq_true hmem]
  · obtain ⟨s', tr, heq, hty, hmape, hvc, hmem⟩ := (h3 (by decide) (by decide)).1 (by decide)
    rw [heq]
    show some ((-5 : Int), (s'.irq_info 10).type, s'.evtchn_to_irq 100,
      s'.virq_to_irq 0 2, decide (Hypercall.evtchnClose 100 ∈ tr)) = _
    rw [hty, hmape, hvc, decide_eq_true hmem]
  · obtain ⟨s', tr, heq, hty, hmape, hic, hmem⟩ := (h4 (by decide) (by decide)).1 (by decide)
    rw [heq]
    show some ((-5 : Int), (s'.irq_info 10).type, s'.evtchn_to_irq 101,
      s'.ipi_to_irq 0 1, decide (Hypercall.evtchnClose 101 ∈ tr)) = _
    rw [hty, hmape, hic, decide_eq_true hmem]
  · obtain ⟨s', tr, heq, hmap, hty⟩ := (g1 (by decide) (by decide)).2 rfl
    rw [heq]
    show some ((Int.ofNat 10 : Int), s'.evtchn_to_irq 4, (s'.irq_info 10).type) = _
    rw [hmap, hty]
    rfl
  · obtain ⟨s', tr, heq, hmap, hty⟩ := (g2 (by decide) (by decide)).2 rfl
    rw [heq]
    show some ((Int.ofNat 10 : Int), s'.evtchn_to_irq 6, (s'.irq_info 10).type) = _
    rw [hmap, hty]
    rfl
  · obtain ⟨s', tr, heq, hmap, hvb, hty⟩ := (g3 (by decide) (by decide)).2 rfl
    rw [heq]
    show some ((Int.ofNat 10 : Int), s'.evtchn_to_irq 100, s'.virq_to_irq 0 2,
      (s'.irq_info 10).type) = _
    rw [hmap, hvb, hty]
    rfl
  · obtain ⟨s', tr, heq, hmap, hib, hty⟩ := (g4 (by decide) (by decide)).2 rfl
    rw [heq]
    show some ((Int.ofNat 10 : Int), s'.evtchn_to_irq 101, s'.ipi_to_irq 0 1,
      (s'.irq_info 10).type) = _
    rw [hmap, hib, hty]
    rfl

end XenEvents
